import Mathlib

/-!
# Verification of the paysat repository

Shallow embedding of the paysat sources and proofs about them.

* `EscrowVault` models `src/cairo/src/escrow_vault.cairo`: the on-chain
  hashed time-locked escrow over a fungible token.  Machine integers
  (`u256`, `u64`, `felt252`) are modelled as `Nat` with explicit bounds
  and `%` where the source can overflow.  Ambient chain data
  (`get_caller_address`, `get_block_timestamp`, `get_contract_address`)
  and the boolean results of the external ERC-20 calls are passed as
  arguments.  The corelib primitive `compute_sha256_byte_array` is an
  external library function; its eight 32-bit output words are passed to
  `claim` as an argument, and the repository's own assembly of those
  words into a 256-bit value (`words_to_u256` / `words_to_u128`) is
  embedded faithfully, felt252 modular arithmetic included.
-/

namespace EscrowVault

/-- Cairo `u256`: a pair of 128-bit limbs, as in `core::integer::u256`. -/
structure U256 where
  low : Nat
  high : Nat
deriving DecidableEq

/-- The mathematical value of a `u256` read from its limbs. -/
def U256.val (x : U256) : Nat := x.high * 2 ^ 128 + x.low

/-- Both limbs fit in 128 bits (automatic for Cairo's `u128` limbs). -/
def U256.wf (x : U256) : Prop := x.low < 2 ^ 128 ∧ x.high < 2 ^ 128

instance (x : U256) : Decidable x.wf := by unfold U256.wf; infer_instance

/-- `EscrowPhase` from `escrow_vault.cairo` (default variant `None`). -/
inductive EscrowPhase where
  | none
  | locked
  | claimed
  | refunded
deriving DecidableEq

/-- `EscrowPosition`: one entry of the `hashlocks` map.  Addresses are
`felt252` values, modelled as `Nat`. -/
structure EscrowPosition where
  phase : EscrowPhase
  user : Nat
  amount : U256
  expires_at : Nat
  locked_at : Nat
deriving DecidableEq

/-- The `Default` impl for `EscrowPosition` (what an unwritten map slot reads as). -/
def defaultPosition : EscrowPosition :=
  { phase := .none, user := 0, amount := ⟨0, 0⟩, expires_at := 0, locked_at := 0 }

/-- Contract storage of `EscrowVault`. -/
structure ContractState where
  owner : Nat
  protocol_operator : Nat
  protocol_treasury : Nat
  asset : Nat
  expiry_window : Nat
  payment_limit : U256
  hashlocks : U256 → EscrowPosition

/-- Writing one slot of the `hashlocks` storage map. -/
def writeHash (f : U256 → EscrowPosition) (h : U256) (p : EscrowPosition) :
    U256 → EscrowPosition :=
  fun k => if k = h then p else f k

/-- `MAX_EXPIRY_WINDOW`: seven days in seconds. -/
def MAX_EXPIRY_WINDOW : Nat := 604800

/-- `2^64`, the bound of Cairo's `u64` (whose checked addition panics past it). -/
def U64_MOD : Nat := 2 ^ 64

/-- An ERC-20 call issued by the vault: `transfer_from(sender, recipient, amount)`
when `sender` is `some`, plain `transfer(recipient, amount)` otherwise. -/
structure TokenTransfer where
  sender : Option Nat
  recipient : Nat
  amount : U256
deriving DecidableEq

/-- `validate_expiry_window`: `assert(window < MAX_EXPIRY_WINDOW, 'EXPIRY_GT_WEEK')`. -/
def validate_expiry_window (window : Nat) : Except String Unit :=
  if window < MAX_EXPIRY_WINDOW then .ok () else .error "EXPIRY_GT_WEEK"

/-- `ensure_non_zero`: the address, seen as `felt252`, must not be zero. -/
def ensure_non_zero (address : Nat) (error : String) : Except String Unit :=
  if address = 0 then .error error else .ok ()

/-- `require_caller`: `assert(get_caller_address() == expected, error)`. -/
def require_caller (caller expected : Nat) (error : String) : Except String Unit :=
  if caller = expected then .ok () else .error error

/-- `ensure_non_zero_limit` from `escrow_vault.cairo`. -/
def ensure_non_zero_limit (limit : U256) : Except String Unit :=
  if limit.low = 0 ∧ limit.high = 0 then .error "LIMIT_ZERO" else .ok ()

/-- `ensure_amount_within_limit`: limb-wise unsigned comparison, high limb first. -/
def ensure_amount_within_limit (amount limit : U256) : Except String Unit :=
  if amount.high > limit.high then .error "LIMIT_EXCEEDED"
  else if amount.high = limit.high ∧ amount.low > limit.low then .error "LIMIT_EXCEEDED"
  else .ok ()

/-- `assert_non_zero_amount` from `escrow_vault.cairo`. -/
def assert_non_zero_amount (amount : U256) : Except String Unit :=
  if amount.low = 0 ∧ amount.high = 0 then .error "AMOUNT_ZERO" else .ok ()

/-- The eight 32-bit words returned by `compute_sha256_byte_array`. -/
structure Sha256Words where
  w0 : Nat
  w1 : Nat
  w2 : Nat
  w3 : Nat
  w4 : Nat
  w5 : Nat
  w6 : Nat
  w7 : Nat
deriving DecidableEq

/-- The Stark field prime: `felt252` arithmetic is modulo this. -/
def FELT_PRIME : Nat := 2 ^ 251 + 17 * 2 ^ 192 + 1

/-- `WORD_BASE = 0x100000000` from `words_to_u128`. -/
def WORD_BASE : Nat := 4294967296

/-- `words_to_u128`: fold four 32-bit words into a felt252 accumulator
(big-endian, each step a felt multiplication and addition modulo the
field prime), then `try_into` a `u128`, panicking with `LIMB_OVERFLOW`
if it does not fit. -/
def words_to_u128 (w0 w1 w2 w3 : Nat) : Except String Nat :=
  let acc : Nat := 0
  let acc := (acc * WORD_BASE + w0) % FELT_PRIME
  let acc := (acc * WORD_BASE + w1) % FELT_PRIME
  let acc := (acc * WORD_BASE + w2) % FELT_PRIME
  let acc := (acc * WORD_BASE + w3) % FELT_PRIME
  if acc < 2 ^ 128 then .ok acc else .error "LIMB_OVERFLOW"

/-- `words_to_u256`: words 0-3 form the high limb, words 4-7 the low limb. -/
def words_to_u256 (ws : Sha256Words) : Except String U256 :=
  match words_to_u128 ws.w0 ws.w1 ws.w2 ws.w3 with
  | .error e => .error e
  | .ok high =>
    match words_to_u128 ws.w4 ws.w5 ws.w6 ws.w7 with
    | .error e => .error e
    | .ok low => .ok ⟨low, high⟩

/-- `sha256_digest`: assemble the digest words produced by the corelib
SHA-256 primitive on the preimage (the words are an input of the model,
the primitive being external to the repository). -/
def sha256_digest (digest_words : Sha256Words) : Except String U256 :=
  words_to_u256 digest_words

/-- The contract `constructor`.  Each `if` mirrors one validation helper
call, in source order. -/
def constructor (owner protocol_operator protocol_treasury asset expiry_window : Nat)
    (payment_limit : U256) : Except String ContractState :=
  if owner = 0 then .error "OWNER_ZERO"
  else if protocol_operator = 0 then .error "OPERATOR_ZERO"
  else if protocol_treasury = 0 then .error "TREASURY_ZERO"
  else if asset = 0 then .error "ASSET_ZERO"
  else if ¬ expiry_window < MAX_EXPIRY_WINDOW then .error "EXPIRY_GT_WEEK"
  else if payment_limit.low = 0 ∧ payment_limit.high = 0 then .error "LIMIT_ZERO"
  else .ok { owner, protocol_operator, protocol_treasury, asset, expiry_window,
             payment_limit, hashlocks := fun _ => defaultPosition }

/-- `lock_for_ln_payment`.  `caller`, `now` and `self_address` are the
ambient syscall values; `transfer_from_ok` is the boolean returned by the
token's `transfer_from`.  The guards appear in source order:
`ensure_non_zero(user)`, `require_caller(user)`, the checked `u64`
addition `now + window`, `assert_non_zero_amount`,
`ensure_amount_within_limit`, the `HASH_REUSED` phase check, and the
asserted `transfer_from` result. -/
def lock_for_ln_payment (s : ContractState) (caller user : Nat) (amount hash : U256)
    (now self_address : Nat) (transfer_from_ok : Bool) :
    Except String (ContractState × TokenTransfer) :=
  if user = 0 then .error "USER_ZERO"
  else if ¬ caller = user then .error "NOT_USER"
  else if ¬ now + s.expiry_window < U64_MOD then .error "u64_add Overflow"
  else if amount.low = 0 ∧ amount.high = 0 then .error "AMOUNT_ZERO"
  else if amount.high > s.payment_limit.high ∨
          (amount.high = s.payment_limit.high ∧ amount.low > s.payment_limit.low) then
    .error "LIMIT_EXCEEDED"
  else if ¬ (s.hashlocks hash).phase = EscrowPhase.none then .error "HASH_REUSED"
  else if ¬ transfer_from_ok then .error "TRANSFER_FROM_FAIL"
  else
    let escrow : EscrowPosition :=
      { phase := .locked, user := user, amount := amount,
        expires_at := now + s.expiry_window, locked_at := now }
    .ok ({ s with hashlocks := writeHash s.hashlocks hash escrow },
         { sender := some user, recipient := self_address, amount := amount })

/-- `claim`.  `digest_words` is the output of `compute_sha256_byte_array`
on the supplied preimage; `transfer_ok` the boolean returned by the
token's `transfer` to the treasury. -/
def claim (s : ContractState) (caller : Nat) (hash : U256) (digest_words : Sha256Words)
    (transfer_ok : Bool) : Except String (ContractState × TokenTransfer) :=
  if ¬ caller = s.protocol_operator then .error "NOT_OPERATOR"
  else if ¬ (s.hashlocks hash).phase = EscrowPhase.locked then .error "NOT_LOCKED"
  else
    match sha256_digest digest_words with
    | .error e => .error e
    | .ok computed =>
      if ¬ computed = hash then .error "HASH_MISMATCH"
      else if ¬ transfer_ok then .error "TRANSFER_FAIL"
      else
        let escrow := { s.hashlocks hash with phase := EscrowPhase.claimed }
        .ok ({ s with hashlocks := writeHash s.hashlocks hash escrow },
             { sender := Option.none, recipient := s.protocol_treasury,
               amount := (s.hashlocks hash).amount })

/-- `refund`.  The source never reads the caller: the model takes no
caller argument at all.  `transfer_ok` is the token's `transfer` result. -/
def refund (s : ContractState) (hash : U256) (now : Nat) (transfer_ok : Bool) :
    Except String (ContractState × TokenTransfer) :=
  if ¬ (s.hashlocks hash).phase = EscrowPhase.locked then .error "NOT_LOCKED"
  else if ¬ (s.hashlocks hash).expires_at ≤ now then .error "ESCROW_ACTIVE"
  else if ¬ transfer_ok then .error "TRANSFER_FAIL"
  else
    let escrow := { s.hashlocks hash with phase := EscrowPhase.refunded }
    .ok ({ s with hashlocks := writeHash s.hashlocks hash escrow },
         { sender := Option.none, recipient := (s.hashlocks hash).user,
           amount := (s.hashlocks hash).amount })

/-- `operator_refund`: operator-only, no expiry gate. -/
def operator_refund (s : ContractState) (caller : Nat) (hash : U256) (_now : Nat)
    (transfer_ok : Bool) : Except String (ContractState × TokenTransfer) :=
  if ¬ caller = s.protocol_operator then .error "NOT_OPERATOR"
  else if ¬ (s.hashlocks hash).phase = EscrowPhase.locked then .error "NOT_LOCKED"
  else if ¬ transfer_ok then .error "TRANSFER_FAIL"
  else
    let escrow := { s.hashlocks hash with phase := EscrowPhase.refunded }
    .ok ({ s with hashlocks := writeHash s.hashlocks hash escrow },
         { sender := Option.none, recipient := (s.hashlocks hash).user,
           amount := (s.hashlocks hash).amount })

/-- `update_expiry_window`: validate the window, then `require_caller(owner)`. -/
def update_expiry_window (s : ContractState) (caller : Nat) (new_expiry_window : Nat) :
    Except String ContractState :=
  if ¬ new_expiry_window < MAX_EXPIRY_WINDOW then .error "EXPIRY_GT_WEEK"
  else if ¬ caller = s.owner then .error "NOT_OWNER"
  else .ok { s with expiry_window := new_expiry_window }

/-- A demo configuration (owner 1, operator 2, treasury 3, asset 4,
hour-long window, limit 10000). -/
def demoConfigState : ContractState :=
  { owner := 1, protocol_operator := 2, protocol_treasury := 3, asset := 4,
    expiry_window := 3600, payment_limit := ⟨10000, 0⟩,
    hashlocks := fun _ => defaultPosition }

def demoHash : U256 := ⟨111, 222⟩

def demoLockedPos : EscrowPosition :=
  { phase := .locked, user := 5, amount := ⟨5000, 0⟩, expires_at := 4600, locked_at := 1000 }

/-- The demo configuration with `demoHash` already in phase `Locked`. -/
def demoLockedState : ContractState :=
  { demoConfigState with
    hashlocks := writeHash demoConfigState.hashlocks demoHash demoLockedPos }

end EscrowVault


/-!
The `Backend` namespace models the Node.js backend: the parsing helpers
of `src/backend/lib/utils.js`, the operator nonce lane of
`src/unnamed/part_002` (the Starknet gateway module), the payment store
helpers of the local-store-helpers module, the payment orchestrator of
`src/backend/lib/paymentProcessor.js` and the credit monitor of
`src/backend/invoiceMonitor.js`.  JavaScript dynamic values are modelled
with explicit variant types; BigInt arithmetic is `Int`/`Nat`; external
RPC results (CLN, Starknet) are inputs of the model; module-level
mutable state (`inflightHashes`, `processedHashes`, `nonceState`, the
JSON store) is passed and returned explicitly.
-/

namespace Backend

/-- Decimal value of a run of digit characters. -/
def digitsVal (ds : List Char) : Nat :=
  ds.foldl (fun a c => a * 10 + (c.toNat - 48)) 0

/-- JS `String.prototype.toLowerCase` (ASCII range, which is all the
backend compares). -/
def jsToLower (s : String) : String := String.mk (s.toList.map Char.toLower)

/-- JS `String.prototype.trim`. -/
def jsTrim (s : String) : String :=
  String.mk (((s.toList.dropWhile Char.isWhitespace).reverse.dropWhile
    Char.isWhitespace).reverse)

/-- Case-insensitive match of one character against a lower/upper pair. -/
def ciLit : List Char → List (Char × Char) → Bool
  | [], [] => true
  | c :: cs, lu :: ps => (c = lu.1 || c = lu.2) && ciLit cs ps
  | _, _ => false

/-- The optional `(msat)?` group anchored at end of input: remainder is
empty or the literal `msat` up to case. -/
def msatSuffix (rest : List Char) : Bool :=
  rest.isEmpty || ciLit rest [('m', 'M'), ('s', 'S'), ('a', 'A'), ('t', 'T')]

/-- `value.match(/^(\d+)(msat)?$/i)`: the captured integer when the whole
string is a non-empty digit run optionally followed by `msat`
(case-insensitively). -/
def msatAnchored (s : String) : Option Nat :=
  let cs := s.toList
  let ds := cs.takeWhile Char.isDigit
  let rest := cs.dropWhile Char.isDigit
  if ds ≠ [] ∧ msatSuffix rest = true then some (digitsVal ds) else Option.none

/-- A dynamic JavaScript value in a numeric field.  `jnum` covers
integral JS numbers (`BigInt(value)` of a non-integral number throws, and
the Lightning fields carry integers); `jnull` covers both `null` and
`undefined`. -/
inductive JsNum where
  | jnull
  | jnum (n : Int)
  | jbig (n : Int)
  | jstr (s : String)
  | jother
deriving DecidableEq

/-- `parseMsat` from `src/backend/lib/utils.js`: numbers and bigints pass
through, strings must match `^(\d+)(msat)?$` case-insensitively — there
is no fallback — and anything else is `null`. -/
def parseMsat : JsNum → Option Int
  | .jnull => Option.none
  | .jnum n => some n
  | .jbig n => some n
  | .jstr s => Option.map (fun n : Nat => (n : Int)) (msatAnchored s)
  | .jother => Option.none

/-- The behaviour claim C9 attributes to `parseMsat`, stated from the
claim's words for comparison: the anchored match first, then a fallback
extracting the digits present in the string.  (In the source that
fallback exists in `parseNumericValue` and `parseSatsValue`, not in
`parseMsat`.) -/
def parseMsatClaimed : JsNum → Option Int
  | .jnull => Option.none
  | .jnum n => some n
  | .jbig n => some n
  | .jstr s =>
    match msatAnchored s with
    | some n => some ((n : Nat) : Int)
    | Option.none =>
      let digits := s.toList.filter Char.isDigit
      if digits ≠ [] then some ((digitsVal digits : Nat) : Int) else Option.none
  | .jother => Option.none

/-- The optional `(sat|sats)?` group of `parseSatsValue`. -/
def satSuffix (rest : List Char) : Bool :=
  rest.isEmpty || ciLit rest [('s', 'S'), ('a', 'A'), ('t', 'T')] ||
    ciLit rest [('s', 'S'), ('a', 'A'), ('t', 'T'), ('s', 'S')]

/-- String case of `parseSatsValue`: anchored `^(\d+)(sat|sats)?$/i`,
then the digits-extraction fallback (`value.match(/[0-9]+/g)` joined). -/
def parseSatsString (s : String) : Option Nat :=
  let cs := s.toList
  let ds := cs.takeWhile Char.isDigit
  let rest := cs.dropWhile Char.isDigit
  if ds ≠ [] ∧ satSuffix rest = true then some (digitsVal ds)
  else
    let digits := cs.filter Char.isDigit
    if digits ≠ [] then some (digitsVal digits) else Option.none

/-- `parseSatsValue` from `src/backend/lib/utils.js`. -/
def parseSatsValue : JsNum → Option Int
  | .jnull => Option.none
  | .jnum n => some n
  | .jbig n => some n
  | .jstr s => Option.map (fun n : Nat => (n : Int)) (parseSatsString s)
  | .jother => Option.none

/-- Lowercase hex digit (`[0-9a-f]`). -/
def isHexLowerDigit (c : Char) : Bool :=
  c.isDigit || (c = 'a' || c = 'b' || c = 'c' || c = 'd' || c = 'e' || c = 'f')

/-- `normalizeStarknet` from `src/backend/lib/utils.js`: non-strings are
`null`; otherwise trim, lowercase, and require `^0x[0-9a-f]{1,66}$`. -/
def normalizeStarknet : Option String → Option String
  | Option.none => Option.none
  | some addr =>
    let a := jsToLower (jsTrim addr)
    match a.toList with
    | '0' :: 'x' :: rest =>
      if rest ≠ [] ∧ rest.length ≤ 66 ∧ rest.all isHexLowerDigit then some a
      else Option.none
    | _ => Option.none

/-- A JavaScript `Error` as the backend inspects it: `message`, optional
`code` and HTTP-ish `status`, and the `_paymentLogged` marker the
orchestrator sets after recording a failure. -/
structure JsError where
  message : String
  code : Option String := Option.none
  status : Option Nat := Option.none
  paymentLogged : Bool := false
deriving DecidableEq

/-- Substring containment on character lists (JS `String.includes`). -/
def listContains (pat : List Char) : List Char → Bool
  | [] => pat.isEmpty
  | c :: rest => pat.isPrefixOf (c :: rest) || listContains pat rest

/-- `message.includes(pat)`. -/
def strContains (s pat : String) : Bool := listContains pat.toList s.toList

/-- `isNonceSyncError` from the Starknet gateway module
(`src/unnamed/part_002`): the lowercased message must contain `nonce`
together with one of the five desync markers. -/
def isNonceSyncError (err : JsError) : Bool :=
  let message := jsToLower err.message
  if ¬ strContains message "nonce" = true then false
  else
    strContains message "low" || strContains message "used" ||
    strContains message "already" || strContains message "invalid" ||
    strContains message "out of order"

/-- The operator nonce cache (`nonceState.next`; `Option.none` is the
uninitialised/invalidated state). -/
structure NonceState where
  next : Option Nat
deriving DecidableEq

/-- `withNonce` from the Starknet gateway module.  `chainNonce` is what
`account.getNonce()` would return if the cache needs seeding; `fn` is the
submission callback.  Returns the callback result, the new cache, and
the nonce value handed to the callback.  The counter is seeded if unset,
assigned to the call, and incremented before the submission runs; a
desync error (`isNonceSyncError`) resets the cache to `Option.none`; any
other error propagates with the counter left advanced. -/
def withNonce {α : Type} (st : NonceState) (chainNonce : Nat)
    (fn : Nat → Except JsError α) : Except JsError α × NonceState × Nat :=
  let nonceToUse := match st.next with
    | Option.none => chainNonce
    | some n => n
  let advanced : Option Nat := some (nonceToUse + 1)
  match fn nonceToUse with
  | .ok v => (.ok v, ⟨advanced⟩, nonceToUse)
  | .error e =>
    if isNonceSyncError e then (.error e, ⟨Option.none⟩, nonceToUse)
    else (.error e, ⟨advanced⟩, nonceToUse)

/-- A serialized error annotation stored on a record (`{message, code}`). -/
structure ErrAnn where
  message : String
  code : String
deriving DecidableEq

/-- The `credit` sub-record of an invoice; `ensureCreditMeta` guarantees
`status` and a numeric `attempts`.  ISO-string mirrors of the timestamps
are presentation-only and omitted. -/
structure CreditState where
  status : String
  attempts : Nat
  last_attempt_at : Option Nat := Option.none
  next_retry_at : Option Nat := Option.none
  last_error : Option ErrAnn := Option.none
  amount_sats : Option String := Option.none
deriving DecidableEq

/-- The invoice fields the credit decision reads (amounts as the strings
`String(v)` produces). -/
structure MonitorInvoice where
  credit_address : Option String := Option.none
  amount_sats : Option String := Option.none
  amount_msat : Option String := Option.none
deriving DecidableEq

/-- `MSATS_PER_SAT` (1 sat = 1000 msat); BigInt division truncates. -/
def MSATS_PER_SAT : Int := 1000

/-- The `amount_msat` leg of `resolveInvoiceAmountSats`. -/
def resolveMsatPart (invoice : MonitorInvoice) : Option Int :=
  match invoice.amount_msat with
  | some v =>
    match parseMsat (.jstr v) with
    | some parsedMsat => some (parsedMsat.tdiv MSATS_PER_SAT)
    | Option.none => Option.none
  | Option.none => Option.none

/-- `resolveInvoiceAmountSats` from `src/backend/invoiceMonitor.js`:
prefer a parsable `amount_sats`, else derive sats from `amount_msat`. -/
def resolveInvoiceAmountSats (invoice : MonitorInvoice) : Option Int :=
  match invoice.amount_sats with
  | some v =>
    match parseSatsValue (.jstr v) with
    | some parsed => some parsed
    | Option.none => resolveMsatPart invoice
  | Option.none => resolveMsatPart invoice

/-- `shouldDelayRetry`: only a `failed` credit with a (truthy) future
`next_retry_at` is delayed. -/
def shouldDelayRetry (credit : CreditState) (now : Nat) : Bool :=
  if ¬ credit.status = "failed" then false
  else
    match credit.next_retry_at with
    | Option.none => false
    | some t => if t = 0 then false else decide (now < t)

/-- `resetStuckProcessing`: a `processing` credit whose last attempt is
older than the stale window is rewritten to `pending` with a
`stale_processing` annotation. -/
def resetStuckProcessing (credit : CreditState) (now staleMs : Nat) : CreditState :=
  if ¬ credit.status = "processing" then credit
  else
    let lastAttempt := credit.last_attempt_at.getD 0
    if now - lastAttempt > staleMs then
      { credit with
        status := "pending",
        last_error := some ⟨"Recovered from stale processing state", "stale_processing"⟩ }
    else credit

/-- Outcome of the decision mutator at the head of `attemptCredit`. -/
structure GateResult where
  proceed : Bool
  reason : Option String
  credit : CreditState
  recipient : Option String := Option.none
  amountSats : Option Int := Option.none
deriving DecidableEq

/-- The decision mutator of `attemptCredit`
(`src/backend/invoiceMonitor.js`): reset stale processing, skip
`credited` and delayed `failed` entries, fail on an invalid address or a
missing/non-positive amount, otherwise mark `processing`, bump
`attempts`, stamp the attempt and clear the error and retry schedule. -/
def attemptCreditGate (invoice : MonitorInvoice) (credit0 : CreditState)
    (now retryMs staleMs : Nat) : GateResult :=
  let credit := resetStuckProcessing credit0 now staleMs
  if credit.status = "credited" then
    { proceed := false, reason := some "already_credited", credit := credit }
  else if shouldDelayRetry credit now then
    { proceed := false, reason := some "retry_wait", credit := credit }
  else
    match normalizeStarknet invoice.credit_address with
    | Option.none =>
      { proceed := false, reason := some "invalid_address",
        credit := { credit with
          status := "failed",
          last_error := some ⟨"Invalid credit address", "invalid_address"⟩,
          next_retry_at := some (now + retryMs) } }
    | some recipient =>
      match resolveInvoiceAmountSats invoice with
      | Option.none =>
        { proceed := false, reason := some "missing_amount",
          credit := { credit with
            status := "failed",
            last_error := some ⟨"Missing invoice amount", "missing_amount"⟩,
            next_retry_at := some (now + retryMs) } }
      | some amountSats =>
        if amountSats ≤ 0 then
          { proceed := false, reason := some "missing_amount",
            credit := { credit with
              status := "failed",
              last_error := some ⟨"Missing invoice amount", "missing_amount"⟩,
              next_retry_at := some (now + retryMs) } }
        else
          { proceed := true, reason := Option.none,
            credit := { credit with
              status := "processing",
              attempts := credit.attempts + 1,
              last_error := Option.none,
              last_attempt_at := some now,
              amount_sats := some (toString amountSats),
              next_retry_at := Option.none },
            recipient := some recipient, amountSats := some amountSats }

/-- Non-empty string test (`bolt11.length > 0`). -/
def strNonEmpty (s : String) : Bool := !s.toList.isEmpty

/-- `paymentHash.startsWith('0x') ? paymentHash.slice(2) : paymentHash`. -/
def stripHexMark (s : String) : String :=
  match s.toList with
  | '0' :: 'x' :: rest => String.mk rest
  | _ => s

/-- `normalizeHex` for string inputs: prepend `0x` when missing. -/
def normalizeHexStr (s : String) : String :=
  match s.toList with
  | '0' :: 'x' :: _ => s
  | _ => String.mk ('0' :: 'x' :: s.toList)

/-- Decimal-digit case of the JS `Number(...)`/`BigInt(...)` builtins on
strings: trim, empty means `0`, otherwise all-digits or failure.  (The
builtins accept further spellings — sign, hex, exponent — that the
backend never feeds them.) -/
def jsDecimalNat (s : String) : Option Nat :=
  let t := (jsTrim s).toList
  if t.isEmpty then some 0
  else if t.all Char.isDigit then some (digitsVal t) else Option.none

/-- Value of a lowercase hex digit. -/
def hexDigitVal (c : Char) : Option Nat :=
  if c.isDigit then some (c.toNat - 48)
  else if c = 'a' then some 10
  else if c = 'b' then some 11
  else if c = 'c' then some 12
  else if c = 'd' then some 13
  else if c = 'e' then some 14
  else if c = 'f' then some 15
  else Option.none

/-- `BigInt("0x...")` on an already-lowercased string: the hex value, or
failure (which `phaseIsLocked` catches as `false`). -/
def hexVal (cs : List Char) : Option Nat :=
  if cs.isEmpty then Option.none
  else
    cs.foldl (fun acc c =>
      match acc, hexDigitVal c with
      | some a, some d => some (a * 16 + d)
      | _, _ => Option.none) (some 0)

/-- One of the serializations of the on-chain phase enum the Starknet
library may hand back: absent, `{variant: "Locked"}`-style, a direct
`{Locked: ...}` key, a string (name, hex or decimal), a number, or a
bigint. -/
inductive PhaseValue where
  | vnull
  | vvariantName (s : String)
  | vkey (s : String)
  | vstr (s : String)
  | vnum (n : Int)
  | vbig (n : Int)
deriving DecidableEq

/-- `phaseIsLocked` from `src/backend/lib/utils.js`. -/
def phaseIsLocked : PhaseValue → Bool
  | .vnull => false
  | .vvariantName s => s = "Locked"
  | .vkey s => s = "Locked"
  | .vstr s =>
    let p := jsToLower s
    if p = "locked" then true
    else
      match p.toList with
      | '0' :: 'x' :: rest =>
        (match hexVal rest with
         | some v => v = 1
         | Option.none => false)
      | _ =>
        (match jsDecimalNat s with
         | some n => n = 1
         | Option.none => false)
  | .vnum n => n = 1
  | .vbig n => n = 1

/-- The CLN invoice fields `processEscrowPayment` reads. -/
structure ClnInvoice where
  label : Option String := Option.none
  status : Option String := Option.none
  amount_msat : JsNum := .jnull
  amount_received_msat : JsNum := .jnull
  paid_msat : JsNum := .jnull
  amount_sats : Option String := Option.none
  amount_sat : Option String := Option.none
  bolt11 : Option String := Option.none
  payreq : Option String := Option.none
  payment_preimage : Option String := Option.none
  preimage : Option String := Option.none
deriving DecidableEq

/-- Result of `decodeBolt11Strict` (the strict BOLT11 decoder). -/
structure DecodedBolt11 where
  paymentHashNo0x : String
  amountSats : Int
deriving DecidableEq

/-- The fields of a CLN `pay` result the orchestrator reads. -/
structure PayResult where
  payment_hash : Option String := Option.none
  amount_msat : JsNum := .jnull
  payment_preimage : Option String := Option.none
  preimage : Option String := Option.none
deriving DecidableEq

/-- Result of the operator service `/claim` call (`requestClaim`). -/
structure ClaimResult where
  status : Option String := Option.none
  tx_hash : Option String := Option.none
deriving DecidableEq

/-- The raw `get_escrow` read: a dynamically-shaped phase, the user
felt as hex string, and the `u256` amount limbs. -/
structure RawEscrow where
  phase : PhaseValue
  user : String
  amount_low : Nat
  amount_high : Nat
  expires_at : Nat
  locked_at : Nat
deriving DecidableEq

/-- The decoded view `loadEscrowFromStorage` returns. -/
structure LockedView where
  user : String
  paymentHashHex : String
  amount : Int
  expiresAt : Nat
  lockedAt : Nat
deriving DecidableEq

/-- `serializeError`: the `{message, code?, status?}` shape persisted on
records (`details`/`stack` omitted). -/
structure SerializedErr where
  message : String
  code : Option String := Option.none
  status : Option Nat := Option.none
deriving DecidableEq

def serializeError (e : JsError) : SerializedErr :=
  { message := e.message, code := e.code, status := e.status }

/-- The `lightning` sub-record of a payment entry. -/
structure LightningSub where
  status : Option String := Option.none
  invoice_status : Option String := Option.none
  amount_sats : Option String := Option.none
  bolt11 : Option String := Option.none
  payment_preimage : Option String := Option.none
  error : Option SerializedErr := Option.none
deriving DecidableEq

/-- The `starknet` sub-record of a payment entry. -/
structure StarknetSub where
  status : Option String := Option.none
deriving DecidableEq

/-- The `invoice` sub-record of a payment entry. -/
structure InvoiceDetails where
  label : Option String := Option.none
  status : Option String := Option.none
  amount_sats : Option String := Option.none
  bolt11 : Option String := Option.none
  source : Option String := Option.none
deriving DecidableEq

/-- A payment record, keyed by lowercase hex hash (`ensureEntry` creates
it with status `created`; identity/timestamp/history fields are
presentation-only and omitted). -/
structure PaymentEntry where
  status : String := "created"
  lightning : Option LightningSub := Option.none
  starknet : Option StarknetSub := Option.none
  invoice : Option InvoiceDetails := Option.none
deriving DecidableEq

/-- The `payments` table of the JSON store, as an association list. -/
abbrev PayStore := List (String × PaymentEntry)

def getEntry (store : PayStore) (key : String) : PaymentEntry :=
  match store.lookup key with
  | some e => e
  | Option.none => {}

def setEntry : PayStore → String → PaymentEntry → PayStore
  | [], key, e => [(key, e)]
  | (k, v) :: rest, key, e =>
    if k = key then (key, e) :: rest else (k, v) :: setEntry rest key e

/-- `mutatePayment`: `ensureEntry` (which lowercases the key and defaults
the record), apply the mutator, persist.  (`pushHistory`/`touch` write
presentation fields the model omits.) -/
def mutatePayment (store : PayStore) (paymentHash : String)
    (mutator : PaymentEntry → PaymentEntry) : PayStore :=
  let key := jsToLower paymentHash
  setEntry store key (mutator (getEntry store key))

def ensureLightning (entry : PaymentEntry) : LightningSub := entry.lightning.getD {}

def ensureStarknet (entry : PaymentEntry) : StarknetSub := entry.starknet.getD {}

/-- `recordLightningFailure` (localStoreHelpers): mark the overall status
`lightning_failed` unless already `claimed`, set the lightning sub-state
`failed` and store the serialized error. -/
def recordLightningFailure (store : PayStore) (paymentHash : String)
    (error : JsError) : PayStore :=
  mutatePayment store (stripHexMark paymentHash) (fun entry =>
    { entry with
      status := if ¬ entry.status = "claimed" then "lightning_failed" else entry.status,
      lightning := some { ensureLightning entry with
        status := some "failed",
        error := some (serializeError error) } })

/-- `markPaymentInflight`: `entry.status = entry.status || 'processing'`
(the ensured entry always has a non-empty status) and lightning
`pending`. -/
def markPaymentInflight (store : PayStore) (paymentHash : String) : PayStore :=
  mutatePayment store (stripHexMark paymentHash) (fun entry =>
    { entry with
      status := if entry.status = "" then "processing" else entry.status,
      lightning := some { ensureLightning entry with status := some "pending" } })

/-- `markPaymentAlreadyClaimed`: absorbing `claimed` status; the starknet
sub-status becomes `claimed` unless it already holds a non-`pending`
value. -/
def markPaymentAlreadyClaimed (store : PayStore) (paymentHash : String) : PayStore :=
  mutatePayment store (stripHexMark paymentHash) (fun entry =>
    let starknet := ensureStarknet entry
    { entry with
      status := "claimed",
      starknet := some { starknet with
        status := if starknet.status = Option.none ∨ starknet.status = some "pending"
          then some "claimed" else starknet.status } })

/-- `recordPaymentRequest`: status `received`, lightning `pending` with
the error cleared (and the request bolt11 attached if none was), starknet
defaulted to `pending`.  (The escrow snapshot and request timestamps are
presentation fields the model omits.) -/
def recordPaymentRequest (store : PayStore) (paymentHash : String)
    (bolt11 : Option String) : PayStore :=
  mutatePayment store (stripHexMark paymentHash) (fun entry =>
    let lightning := ensureLightning entry
    let starknet := ensureStarknet entry
    { entry with
      status := "received",
      lightning := some { lightning with
        status := some "pending",
        error := Option.none,
        bolt11 := if ¬ bolt11 = Option.none ∧ lightning.bolt11 = Option.none
          then bolt11 else lightning.bolt11 },
      starknet := some { starknet with
        status := if starknet.status = Option.none then some "pending"
          else starknet.status } })

/-- `setInvoiceDetails` plus the lightning mirror fields of
`recordInvoiceDetails`. -/
def recordInvoiceDetails (store : PayStore) (paymentHash : String)
    (label status amount_sats bolt11 source : Option String) : PayStore :=
  mutatePayment store (stripHexMark paymentHash) (fun entry =>
    let invoice0 := entry.invoice.getD {}
    let lightning := ensureLightning entry
    { entry with
      invoice := some
        { label := label.orElse (fun _ => invoice0.label),
          status := status.orElse (fun _ => invoice0.status),
          amount_sats := amount_sats.orElse (fun _ => invoice0.amount_sats),
          bolt11 := bolt11.orElse (fun _ => invoice0.bolt11),
          source := source.orElse (fun _ => invoice0.source) },
      lightning := some { lightning with
        invoice_status := status.orElse (fun _ => lightning.invoice_status),
        amount_sats := amount_sats.orElse (fun _ => lightning.amount_sats),
        bolt11 := if ¬ bolt11 = Option.none ∧ lightning.bolt11 = Option.none
          then bolt11 else lightning.bolt11 } })

/-- `recordLightningSuccess`: overall status `awaiting_claim` (unless
`claimed`), lightning marked paid/already-paid with the preimage and the
error cleared. -/
def recordLightningSuccess (store : PayStore) (paymentHash : String)
    (invoice_status : Option String) (amount_sats : Option String)
    (payment_preimage : Option String) (already_paid : Bool) : PayStore :=
  mutatePayment store (stripHexMark paymentHash) (fun entry =>
    let lightningStatus := if already_paid then "already_paid" else "paid"
    let lightning := ensureLightning entry
    let invoice0 := entry.invoice.getD {}
    { entry with
      status := if entry.status = "claimed" then "claimed" else "awaiting_claim",
      invoice := some { invoice0 with
        status := invoice_status.orElse (fun _ => invoice0.status),
        amount_sats := amount_sats.orElse (fun _ => invoice0.amount_sats) },
      lightning := some { lightning with
        status := some lightningStatus,
        invoice_status := invoice_status.orElse (fun _ => lightning.invoice_status),
        amount_sats := amount_sats.orElse (fun _ => lightning.amount_sats),
        payment_preimage := payment_preimage.orElse
          (fun _ => lightning.payment_preimage),
        error := Option.none } })

/-- `recordPaymentError`: overall status `error` unless a more specific
terminal label is already present; the lightning error slot records the
serialized error. -/
def recordPaymentError (store : PayStore) (paymentHash : String)
    (error : JsError) : PayStore :=
  mutatePayment store (stripHexMark paymentHash) (fun entry =>
    let lightning := ensureLightning entry
    { entry with
      status := if ¬ (entry.status = "claimed" ∨ entry.status = "claim_failed" ∨
          entry.status = "lightning_failed") then "error" else entry.status,
      lightning := some { lightning with
        status := if lightning.status = Option.none then some "pending"
          else lightning.status,
        error := some (serializeError error) },
      starknet := some (ensureStarknet entry) })

/-- The external calls an orchestration can make, in order. -/
inductive Ev where
  | chainGetEscrow
  | clnFindInvoice
  | clnPay
  | clnFetchPreimage
  | submitClaim
deriving DecidableEq

/-- The environment of one orchestration: the responses the external
collaborators (chain RPC, CLN, the strict BOLT11 decoder over the
light-bolt11 library, and the operator claim service) would give to the
single call the orchestrator makes to each. -/
structure OrchEnv where
  getEscrow : Except JsError RawEscrow
  findInvoice : Except JsError (Option ClnInvoice)
  decodeBolt11 : String → Except JsError DecodedBolt11
  payInvoice : Except JsError PayResult
  fetchPayPreimage : Except JsError (Option String)
  requestClaim : Except JsError ClaimResult

/-- The in-memory orchestrator state: `processedHashes`, `inflightHashes`
and the persistent payments store. -/
structure OrchState where
  processed : List String
  inflight : List String
  store : PayStore

/-- Shape of a successful `processEscrowPayment` result (the nested
result object projected to its status fields). -/
structure PayOutcome where
  status : String
  lightning_status : String
  starknet_status : String
deriving DecidableEq

/-- `loadEscrowFromStorage` (`src/unnamed/part_002`): one `get_escrow`
read; a position whose phase is not `Locked` throws; otherwise the
decoded view (user hex lowercased, `u256` limbs combined, timestamps). -/
def loadEscrowFromStorage (env : OrchEnv) (paymentHashHex : String) :
    Except JsError LockedView × List Ev :=
  match env.getEscrow with
  | .error e => (.error e, [.chainGetEscrow])
  | .ok pos =>
    if ¬ phaseIsLocked pos.phase = true then
      (.error { message := "Escrow position not found or not in Locked phase" },
       [.chainGetEscrow])
    else
      (.ok { user := jsToLower (normalizeHexStr pos.user),
             paymentHashHex := paymentHashHex,
             amount := ((pos.amount_low + pos.amount_high * 2 ^ 128 : Nat) : Int),
             expiresAt := pos.expires_at, lockedAt := pos.locked_at },
       [.chainGetEscrow])

/-- The `satCandidates` loop of `processEscrowPayment`: first of
`amount_sats`, `amount_sat` that is present and parses as a BigInt. -/
def parseCandidate (v : Option String) : Option Int :=
  v.bind (fun w => (jsDecimalNat w).map (fun n : Nat => (n : Int)))

def firstSatCandidate (inv : ClnInvoice) : Option Int :=
  match parseCandidate inv.amount_sats with
  | some a => some a
  | Option.none => parseCandidate inv.amount_sat

/-- Lines 77-89 of `processEscrowPayment`: resolve the invoice amount in
sats from the msat fields (whole sats enforced), falling back to the sat
fields, else `invoice_missing_amount`. -/
def computeInvoiceAmount (inv : ClnInvoice) : Except JsError Int :=
  let invoiceMsat :=
    match parseMsat inv.amount_msat with
    | some m => some m
    | Option.none =>
      match parseMsat inv.amount_received_msat with
      | some m => some m
      | Option.none => parseMsat inv.paid_msat
  match invoiceMsat with
  | some m =>
    if ¬ m.tmod MSATS_PER_SAT = 0 then
      .error { message := "Invoice amount must resolve to whole sats",
               code := some "fractional_sats", status := some 409 }
    else .ok (m.tdiv MSATS_PER_SAT)
  | Option.none =>
    match firstSatCandidate inv with
    | some a => .ok a
    | Option.none =>
      .error { message := "Invoice does not report an amount",
               code := some "invoice_missing_amount", status := some 409 }

/-- Lines 167-194: record the lightning success and submit the claim;
on success the hash joins `processedHashes`. -/
def escrowPayClaim (env : OrchEnv) (store : PayStore) (processed : List String)
    (h : String) (invOpt : Option ClnInvoice) (invoiceAmount : Int)
    (lightningStatus : String) (preimage : String) (trPre : List Ev) :
    Except JsError PayOutcome × List Ev × PayStore × List String :=
  let invoiceStatus := if lightningStatus = "already_paid" then
      (match invOpt with
       | some inv => inv.status.getD "paid"
       | Option.none => "paid")
    else "paid"
  let store2 := recordLightningSuccess store h (some invoiceStatus)
    (some (toString invoiceAmount)) (some preimage)
    (lightningStatus = "already_paid")
  match env.requestClaim with
  | .error e => (.error e, trPre ++ [.submitClaim], store2, processed)
  | .ok claimResult =>
    let starknetStatus := claimResult.status.getD "claimed"
    (.ok { status := starknetStatus, lightning_status := lightningStatus,
           starknet_status := starknetStatus },
     trPre ++ [.submitClaim], store2, processed.insert h)

/-- Lines 151-165: acquire the preimage (from the pay/invoice data or a
`listpays` query), failing `missing_preimage` if none surfaces. -/
def escrowPayFinish (env : OrchEnv) (store : PayStore) (processed : List String)
    (h : String) (invOpt : Option ClnInvoice) (invoiceAmount : Int)
    (lightningStatus : String) (preimage : Option String) (trPre : List Ev) :
    Except JsError PayOutcome × List Ev × PayStore × List String :=
  match preimage with
  | some p =>
    escrowPayClaim env store processed h invOpt invoiceAmount lightningStatus p trPre
  | Option.none =>
    match env.fetchPayPreimage with
    | .error e =>
      (.error { e with paymentLogged := true }, trPre ++ [.clnFetchPreimage],
       recordLightningFailure store h e, processed)
    | .ok (some p) =>
      escrowPayClaim env store processed h invOpt invoiceAmount lightningStatus p
        (trPre ++ [.clnFetchPreimage])
    | .ok Option.none =>
      let e : JsError := { message := "Unable to retrieve payment preimage from CLN",
                           code := some "missing_preimage", status := some 502 }
      (.error { e with paymentLogged := true }, trPre ++ [.clnFetchPreimage],
       recordLightningFailure store h e, processed)

/-- Lines 98-149: the amount-equality gate, invoice-details record, the
Lightning pay with its post-pay invariants, then the preimage steps. -/
def escrowPayAfterAmount (env : OrchEnv) (store0 : PayStore) (processed0 : List String)
    (locked : LockedView) (bolt11 : Option String) (h : String)
    (invOpt : Option ClnInvoice) (invoiceAmount : Int) :
    Except JsError PayOutcome × List Ev × PayStore × List String :=
  if ¬ invoiceAmount = locked.amount then
    (.error { message := "Locked amount does not match invoice amount",
              code := some "amount_mismatch", status := some 409 },
     [.clnFindInvoice], store0, processed0)
  else
    let store1 := match invOpt with
      | some inv => recordInvoiceDetails store0 h inv.label inv.status
          (some (toString invoiceAmount))
          ((inv.bolt11).orElse (fun _ => inv.payreq)) (some "cln")
      | Option.none => recordInvoiceDetails store0 h Option.none (some "paid")
          (some (toString invoiceAmount)) bolt11 (some "external")
    let alreadyPaid : Bool := match invOpt with
      | some inv => inv.status = some "paid" || inv.status = some "complete"
      | Option.none => false
    let preimage0 : Option String := match invOpt with
      | some inv => (inv.payment_preimage).orElse (fun _ => inv.preimage)
      | Option.none => Option.none
    if alreadyPaid then
      escrowPayFinish env store1 processed0 h invOpt invoiceAmount "already_paid"
        preimage0 [.clnFindInvoice]
    else
      match env.payInvoice with
      | .error e =>
        (.error { e with paymentLogged := true }, [.clnFindInvoice, .clnPay],
         recordLightningFailure store1 h e, processed0)
      | .ok payResult =>
        let paidHash := jsToLower (payResult.payment_hash.getD "")
        if ¬ paidHash = "" ∧ ¬ paidHash = h then
          let e : JsError := { message := "Paid invoice hash differs from locked hash",
                               code := some "lightning_payment_hash_mismatch",
                               status := some 502 }
          (.error { e with paymentLogged := true }, [.clnFindInvoice, .clnPay],
           recordLightningFailure store1 h e, processed0)
        else
          let paidMsatBad : Bool := match parseMsat payResult.amount_msat with
            | some paidMsat => !(paidMsat = locked.amount * MSATS_PER_SAT : Bool)
            | Option.none => false
          if paidMsatBad then
            let e : JsError := { message := "Paid msats differ from locked amount",
                                 code := some "lightning_payment_amount_mismatch",
                                 status := some 502 }
            (.error { e with paymentLogged := true }, [.clnFindInvoice, .clnPay],
             recordLightningFailure store1 h e, processed0)
          else
            let preimage := (payResult.payment_preimage).orElse
              (fun _ => (payResult.preimage).orElse (fun _ => preimage0))
            escrowPayFinish env store1 processed0 h invOpt invoiceAmount "paid"
              preimage [.clnFindInvoice, .clnPay]

/-- Lines 66-96 of `processEscrowPayment`: the `findInvoice` call, the
external-bolt11 fallback with its hash check, and invoice-amount
resolution. -/
def escrowPayBody (env : OrchEnv) (store0 : PayStore) (processed0 : List String)
    (locked : LockedView) (bolt11 : Option String) (h : String) :
    Except JsError PayOutcome × List Ev × PayStore × List String :=
  match env.findInvoice with
  | .error e => (.error e, [.clnFindInvoice], store0, processed0)
  | .ok (some inv) =>
    match computeInvoiceAmount inv with
    | .error e => (.error e, [.clnFindInvoice], store0, processed0)
    | .ok invoiceAmount =>
      escrowPayAfterAmount env store0 processed0 locked bolt11 h (some inv)
        invoiceAmount
  | .ok Option.none =>
    match bolt11 with
    | some b =>
      if strNonEmpty b then
        match env.decodeBolt11 b with
        | .error e => (.error e, [.clnFindInvoice], store0, processed0)
        | .ok decoded =>
          if ¬ decoded.paymentHashNo0x = h then
            (.error { message := "BOLT11 payment hash does not match locked hash",
                      code := some "hash_mismatch", status := some 409 },
             [.clnFindInvoice], store0, processed0)
          else
            escrowPayAfterAmount env store0 processed0 locked bolt11 h Option.none
              decoded.amountSats
      else
        let e : JsError := { message := "Invoice not found for payment hash",
                             code := some "invoice_not_found", status := some 404 }
        (.error { e with paymentLogged := true }, [.clnFindInvoice],
         recordLightningFailure store0 h e, processed0)
    | Option.none =>
      let e : JsError := { message := "Invoice not found for payment hash",
                           code := some "invoice_not_found", status := some 404 }
      (.error { e with paymentLogged := true }, [.clnFindInvoice],
       recordLightningFailure store0 h e, processed0)

/-- `processEscrowPayment` (`src/backend/lib/paymentProcessor.js`): the
`processedHashes` short-circuit, the `inflightHashes` 409 gate, then the
body inside try/catch (unlogged errors get a `recordLightningFailure`)
and the `finally` that removes the hash from `inflightHashes`. -/
def processEscrowPayment (env : OrchEnv) (st : OrchState) (locked : LockedView)
    (bolt11 : Option String) : Except JsError PayOutcome × List Ev × OrchState :=
  let paymentHashHex := locked.paymentHashHex
  if paymentHashHex ∈ st.processed then
    (.ok { status := "already_claimed", lightning_status := "skipped",
           starknet_status := "skipped" },
     [], { st with store := markPaymentAlreadyClaimed st.store paymentHashHex })
  else if paymentHashHex ∈ st.inflight then
    (.error { message := "Payment processing already in progress for this hash",
              code := some "payment_inflight", status := some 409 }, [], st)
  else
    let store1 := markPaymentInflight st.store paymentHashHex
    let body := escrowPayBody env store1 st.processed locked bolt11 paymentHashHex
    let afterCatch : Except JsError PayOutcome × PayStore :=
      match body.1 with
      | .ok v => (.ok v, body.2.2.1)
      | .error e =>
        if e.paymentLogged then (.error e, body.2.2.1)
        else (.error { e with paymentLogged := true },
              recordLightningFailure body.2.2.1 paymentHashHex e)
    (afterCatch.1, body.2.1,
     { processed := body.2.2.2,
       inflight := (paymentHashHex :: st.inflight).erase paymentHashHex,
       store := afterCatch.2 })

/-- Shape of a successful `processPaymentRequest` result: the overall
status plus the `locked_event` echo of the on-chain position. -/
structure ReqOutcome where
  status : String
  locked_user : String
  locked_amount : Int
deriving DecidableEq

/-- `processPaymentRequest`: load the escrow position (an on-chain read,
before any dedup check), record the request, then run
`processEscrowPayment`; an error that escaped unlogged gets a
`recordPaymentError`. -/
def processPaymentRequest (env : OrchEnv) (st : OrchState) (paymentHashHex : String)
    (bolt11 : Option String) : Except JsError ReqOutcome × List Ev × OrchState :=
  match loadEscrowFromStorage env paymentHashHex with
  | (.error e, tr) => (.error e, tr, st)
  | (.ok locked, tr) =>
    let st1 : OrchState :=
      { st with store := recordPaymentRequest st.store paymentHashHex bolt11 }
    let out := processEscrowPayment env st1 locked bolt11
    match out.1 with
    | .ok r =>
      (.ok { status := r.status, locked_user := locked.user,
             locked_amount := locked.amount }, tr ++ out.2.1, out.2.2)
    | .error e =>
      if e.paymentLogged then (.error e, tr ++ out.2.1, out.2.2)
      else (.error e, tr ++ out.2.1,
            { out.2.2 with
              store := recordPaymentError out.2.2.store paymentHashHex e })

/-- Declarative reading of `^(\d+)(msat)?$` (case-insensitive): the
string splits into a non-empty digit run capturing `k` and a remainder
that is empty or `msat` up to case. -/
def MsatRegexMatch (s : String) (k : Nat) : Prop :=
  ∃ ds rest, s.toList = ds ++ rest ∧ ds ≠ [] ∧ (∀ c ∈ ds, Char.isDigit c = true) ∧
    msatSuffix rest = true ∧ k = digitsVal ds

def demoSyncErr : JsError := { message := "Invalid transaction nonce" }

def demoOtherErr : JsError := { message := "rpc timeout" }

def demoRecentProcessing : CreditState :=
  { status := "processing", attempts := 1, last_attempt_at := some 9999000 }

def demoMonitorInvoice : MonitorInvoice :=
  { credit_address := some "0xabc", amount_sats := some "5000" }

def demoRaw : RawEscrow :=
  { phase := .vvariantName "Locked", user := "abc", amount_low := 5000,
    amount_high := 0, expires_at := 4600, locked_at := 1000 }

def demoEnvLocked : OrchEnv :=
  { getEscrow := .ok demoRaw,
    findInvoice := .ok Option.none,
    decodeBolt11 := fun _ => .error { message := "Unable to decode BOLT11 invoice" },
    payInvoice := .error { message := "no pay" },
    fetchPayPreimage := .ok Option.none,
    requestClaim := .error { message := "no claim" } }

def demoLockedView : LockedView :=
  { user := "0xabc", paymentHashHex := "aa", amount := 5000,
    expiresAt := 4600, lockedAt := 1000 }

def demoProcessedState : OrchState :=
  { processed := ["aa"], inflight := [], store := [] }

def demoInflightState : OrchState :=
  { processed := [], inflight := ["aa"], store := [] }

def demoEnvMismatch : OrchEnv :=
  { getEscrow := .ok demoRaw,
    findInvoice := .ok Option.none,
    decodeBolt11 := fun _ => .ok { paymentHashNo0x := "aa", amountSats := 6000 },
    payInvoice := .error { message := "no pay" },
    fetchPayPreimage := .ok Option.none,
    requestClaim := .error { message := "no claim" } }

def demoEmptyState : OrchState := { processed := [], inflight := [], store := [] }

end Backend

namespace EscrowVault

/-- With genuine 32-bit words the felt252 reductions in `words_to_u128`
never fire and the result is the big-endian 128-bit value. -/
theorem words_to_u128_ok (w0 w1 w2 w3 : Nat) (h0 : w0 < 2 ^ 32) (h1 : w1 < 2 ^ 32)
    (h2 : w2 < 2 ^ 32) (h3 : w3 < 2 ^ 32) :
    words_to_u128 w0 w1 w2 w3 =
      .ok (((w0 * WORD_BASE + w1) * WORD_BASE + w2) * WORD_BASE + w3) := by
  simp only [words_to_u128, WORD_BASE, FELT_PRIME]
  have m0 : (0 * 4294967296 + w0) % (2 ^ 251 + 17 * 2 ^ 192 + 1) = w0 := by omega
  rw [m0]
  have m1 : (w0 * 4294967296 + w1) % (2 ^ 251 + 17 * 2 ^ 192 + 1) = w0 * 4294967296 + w1 := by
    omega
  rw [m1]
  have m2 : ((w0 * 4294967296 + w1) * 4294967296 + w2) % (2 ^ 251 + 17 * 2 ^ 192 + 1) =
      (w0 * 4294967296 + w1) * 4294967296 + w2 := by omega
  rw [m2]
  have m3 : (((w0 * 4294967296 + w1) * 4294967296 + w2) * 4294967296 + w3) %
      (2 ^ 251 + 17 * 2 ^ 192 + 1) =
      ((w0 * 4294967296 + w1) * 4294967296 + w2) * 4294967296 + w3 := by omega
  rw [m3, if_pos (by omega)]

/-- **C1** (amended).  For every hash the phase sequence is a prefix of
`None → Locked → (Claimed | Refunded)`: `lock_for_ln_payment` succeeds only
from phase `None`; a second lock with the same hash fails with
`HASH_REUSED` whenever the validations that precede the hash check pass
(non-zero user, caller = user, no `u64` overflow, non-zero amount within
the limit) — with a zero amount or a wrong caller the second lock still
fails, but with that earlier validation's error; `claim`, `refund` and
`operator_refund` succeed only from phase `Locked`; and no successful
operation changes an entry whose phase is terminal (`Claimed`/`Refunded`). -/
theorem escrow_phase_lifecycle
    (s : ContractState) (caller user now selfa : Nat) (amount hash : U256)
    (tfOk : Bool) (dw : Sha256Words) (s' : ContractState) (t : TokenTransfer) :
    (lock_for_ln_payment s caller user amount hash now selfa tfOk = .ok (s', t) →
      (s.hashlocks hash).phase = EscrowPhase.none) ∧
    (¬ (s.hashlocks hash).phase = EscrowPhase.none → ¬ user = 0 → caller = user →
      now + s.expiry_window < U64_MOD → ¬ (amount.low = 0 ∧ amount.high = 0) →
      ensure_amount_within_limit amount s.payment_limit = .ok () →
      lock_for_ln_payment s caller user amount hash now selfa tfOk = .error "HASH_REUSED") ∧
    (claim s caller hash dw tfOk = .ok (s', t) →
      (s.hashlocks hash).phase = EscrowPhase.locked) ∧
    (refund s hash now tfOk = .ok (s', t) →
      (s.hashlocks hash).phase = EscrowPhase.locked) ∧
    (operator_refund s caller hash now tfOk = .ok (s', t) →
      (s.hashlocks hash).phase = EscrowPhase.locked) ∧
    (∀ h2 : U256,
      (s.hashlocks h2).phase = EscrowPhase.claimed ∨
        (s.hashlocks h2).phase = EscrowPhase.refunded →
      (lock_for_ln_payment s caller user amount hash now selfa tfOk = .ok (s', t) →
        s'.hashlocks h2 = s.hashlocks h2) ∧
      (claim s caller hash dw tfOk = .ok (s', t) → s'.hashlocks h2 = s.hashlocks h2) ∧
      (refund s hash now tfOk = .ok (s', t) → s'.hashlocks h2 = s.hashlocks h2) ∧
      (operator_refund s caller hash now tfOk = .ok (s', t) →
        s'.hashlocks h2 = s.hashlocks h2)) := by
  have hclaim : ∀ s2 t2, claim s caller hash dw tfOk = .ok (s2, t2) →
      (s.hashlocks hash).phase = EscrowPhase.locked ∧
      s2.hashlocks = writeHash s.hashlocks hash
        ({ s.hashlocks hash with phase := EscrowPhase.claimed }) := by
    intro s2 t2 h
    unfold claim at h
    rcases hdg : sha256_digest dw with e | computed <;> rw [hdg] at h <;>
      dsimp only at h <;> split_ifs at h with h1 h2 h3 h4 <;> cases h <;>
      exact ⟨h2, rfl⟩
  have hrefund : ∀ s2 t2, refund s hash now tfOk = .ok (s2, t2) →
      (s.hashlocks hash).phase = EscrowPhase.locked ∧
      s2.hashlocks = writeHash s.hashlocks hash
        ({ s.hashlocks hash with phase := EscrowPhase.refunded }) := by
    intro s2 t2 h
    unfold refund at h
    split_ifs at h with h1 h2 h3 <;> cases h <;> exact ⟨h1, rfl⟩
  have hoprefund : ∀ s2 t2, operator_refund s caller hash now tfOk = .ok (s2, t2) →
      (s.hashlocks hash).phase = EscrowPhase.locked ∧
      s2.hashlocks = writeHash s.hashlocks hash
        ({ s.hashlocks hash with phase := EscrowPhase.refunded }) := by
    intro s2 t2 h
    unfold operator_refund at h
    split_ifs at h with h1 h2 h3 <;> cases h <;> exact ⟨h2, rfl⟩
  have hlock : ∀ s2 t2, lock_for_ln_payment s caller user amount hash now selfa tfOk
        = .ok (s2, t2) →
      (s.hashlocks hash).phase = EscrowPhase.none ∧
      s2.hashlocks = writeHash s.hashlocks hash
        ({ phase := .locked, user := user, amount := amount,
           expires_at := now + s.expiry_window, locked_at := now }) := by
    intro s2 t2 h
    unfold lock_for_ln_payment at h
    split_ifs at h with h1 h2 h3 h4 h5 h6 h7 <;> cases h <;> exact ⟨h6, rfl⟩
  refine ⟨fun h => (hlock s' t h).1, ?_, fun h => (hclaim s' t h).1,
    fun h => (hrefund s' t h).1, fun h => (hoprefund s' t h).1, ?_⟩
  · intro hp hu hc hov ha hlim
    unfold ensure_amount_within_limit at hlim
    split_ifs at hlim with hl1 hl2
    unfold lock_for_ln_payment
    rw [if_neg hu, if_neg (by simpa using hc), if_neg (by simpa using hov),
      if_neg ha, if_neg (by tauto), if_pos hp]
  · intro h2 hterm
    have hne_of_locked : (s.hashlocks hash).phase = EscrowPhase.locked → ¬ h2 = hash := by
      intro hl he
      rw [he] at hterm
      rcases hterm with hp | hp <;> rw [hl] at hp <;> cases hp
    have hne_of_none : (s.hashlocks hash).phase = EscrowPhase.none → ¬ h2 = hash := by
      intro hl he
      rw [he] at hterm
      rcases hterm with hp | hp <;> rw [hl] at hp <;> cases hp
    refine ⟨fun h => ?_, fun h => ?_, fun h => ?_, fun h => ?_⟩
    · obtain ⟨hp, hs⟩ := hlock s' t h
      rw [hs, writeHash, if_neg (hne_of_none hp)]
    · obtain ⟨hp, hs⟩ := hclaim s' t h
      rw [hs, writeHash, if_neg (hne_of_locked hp)]
    · obtain ⟨hp, hs⟩ := hrefund s' t h
      rw [hs, writeHash, if_neg (hne_of_locked hp)]
    · obtain ⟨hp, hs⟩ := hoprefund s' t h
      rw [hs, writeHash, if_neg (hne_of_locked hp)]

/-- **C1** witness: a second lock on a `Locked` hash with an otherwise
valid call fails with `HASH_REUSED`. -/
theorem escrow_phase_lifecycle_witness :
    lock_for_ln_payment demoLockedState 5 5 ⟨100, 0⟩ demoHash 1000 7 true =
      .error "HASH_REUSED" :=
  (escrow_phase_lifecycle demoLockedState 5 5 1000 7 ⟨100, 0⟩ demoHash true
      ⟨0, 0, 0, 0, 0, 0, 0, 0⟩ demoLockedState ⟨Option.none, 0, ⟨0, 0⟩⟩).2.1
    (by decide) (by decide) rfl (by decide) (by decide) rfl

/-- **C1** counterexample to the claim as stated: with the hash already
`Locked`, a second lock carrying a zero amount fails with `AMOUNT_ZERO`,
not `HASH_REUSED` — so the second lock does not fail with `HASH_REUSED`
"regardless of amounts or users". -/
theorem lock_second_zero_amount_cex :
    (demoLockedState.hashlocks demoHash).phase = EscrowPhase.locked ∧
    lock_for_ln_payment demoLockedState 5 5 ⟨0, 0⟩ demoHash 1000 7 true =
      .error "AMOUNT_ZERO" ∧
    "AMOUNT_ZERO" ≠ "HASH_REUSED" :=
  ⟨rfl, rfl, by decide⟩

/-- **C2**.  `claim(hash, preimage)` succeeds only when the caller is the
protocol operator, the position is `Locked`, and the SHA-256 digest of the
preimage, assembled big-endian with words 0-3 as the high 128 bits and
words 4-7 as the low 128 bits, equals `hash`; on success the phase
becomes `Claimed` and the locked amount is transferred to the protocol
treasury.  The middle conjunct pins the word assembly down bit-for-bit:
for genuine 32-bit digest words the assembled 256-bit value is
`Σ wi · 2^(32·(7−i))`. -/
theorem claim_operator_preimage_and_payout
    (s : ContractState) (caller : Nat) (hash : U256) (dw : Sha256Words) (tfOk : Bool) :
    (∀ s' t, claim s caller hash dw tfOk = .ok (s', t) →
      caller = s.protocol_operator ∧
      (s.hashlocks hash).phase = EscrowPhase.locked ∧
      sha256_digest dw = .ok hash ∧
      (s'.hashlocks hash).phase = EscrowPhase.claimed ∧
      t = ⟨Option.none, s.protocol_treasury, (s.hashlocks hash).amount⟩) ∧
    (dw.w0 < 2 ^ 32 → dw.w1 < 2 ^ 32 → dw.w2 < 2 ^ 32 → dw.w3 < 2 ^ 32 →
     dw.w4 < 2 ^ 32 → dw.w5 < 2 ^ 32 → dw.w6 < 2 ^ 32 → dw.w7 < 2 ^ 32 →
      ∃ u : U256, sha256_digest dw = .ok u ∧
        u.high = ((dw.w0 * 2 ^ 32 + dw.w1) * 2 ^ 32 + dw.w2) * 2 ^ 32 + dw.w3 ∧
        u.low = ((dw.w4 * 2 ^ 32 + dw.w5) * 2 ^ 32 + dw.w6) * 2 ^ 32 + dw.w7 ∧
        u.val = dw.w0 * 2 ^ 224 + dw.w1 * 2 ^ 192 + dw.w2 * 2 ^ 160 + dw.w3 * 2 ^ 128 +
                dw.w4 * 2 ^ 96 + dw.w5 * 2 ^ 64 + dw.w6 * 2 ^ 32 + dw.w7) ∧
    (caller = s.protocol_operator → (s.hashlocks hash).phase = EscrowPhase.locked →
      sha256_digest dw = .ok hash → tfOk = true →
      ∃ s', claim s caller hash dw tfOk =
        .ok (s', ⟨Option.none, s.protocol_treasury, (s.hashlocks hash).amount⟩)) := by
  refine ⟨?_, ?_, ?_⟩
  · intro s' t h
    unfold claim at h
    rcases hdg : sha256_digest dw with e | computed <;> rw [hdg] at h <;>
      dsimp only at h <;> split_ifs at h with h1 h2 h3 h4 <;> cases h
    subst h3
    exact ⟨h1, h2, rfl, by simp [writeHash], rfl⟩
  · intro b0 b1 b2 b3 b4 b5 b6 b7
    have hB : WORD_BASE = 2 ^ 32 := by norm_num [WORD_BASE]
    unfold sha256_digest words_to_u256
    rw [words_to_u128_ok dw.w0 dw.w1 dw.w2 dw.w3 b0 b1 b2 b3,
      words_to_u128_ok dw.w4 dw.w5 dw.w6 dw.w7 b4 b5 b6 b7]
    refine ⟨_, rfl, by rw [hB], by rw [hB], ?_⟩
    rw [hB]
    unfold U256.val
    ring
  · intro h1 h2 h3 h4
    subst h4
    refine ⟨{ s with hashlocks := (writeHash s.hashlocks hash
        ({ s.hashlocks hash with phase := EscrowPhase.claimed })) }, ?_⟩
    unfold claim
    rw [if_neg (by simp [h1]), if_neg (by simp [h2]), h3]
    dsimp only
    rw [if_neg (by simp), if_neg (by simp)]

/-- **C2** witness: with digest words assembling to the locked hash, the
operator's claim on the demo `Locked` position succeeds and pays the
treasury. -/
theorem claim_operator_preimage_witness :
    ∃ s', claim demoLockedState 2 demoHash ⟨0, 0, 0, 222, 0, 0, 0, 111⟩ true =
      .ok (s', ⟨Option.none, demoLockedState.protocol_treasury,
                (demoLockedState.hashlocks demoHash).amount⟩) :=
  (claim_operator_preimage_and_payout demoLockedState 2 demoHash
      ⟨0, 0, 0, 222, 0, 0, 0, 111⟩ true).2.2 rfl (by decide) rfl rfl

/-- **C3**.  For a `Locked` position (and a token transfer that succeeds):
`refund` succeeds iff `now ≥ expires_at`, failing with `ESCROW_ACTIVE`
before expiry — the source reads no caller at all, which the model
reflects by `refund` having no caller argument; `operator_refund`
succeeds iff the caller is the protocol operator, at any timestamp,
before expiry included.  Both send the locked amount back to the user
recorded at lock time and set the phase to `Refunded`. -/
theorem refund_and_operator_refund_gates
    (s : ContractState) (caller : Nat) (hash : U256) (now : Nat)
    (hlock : (s.hashlocks hash).phase = EscrowPhase.locked) :
    ((∃ s' t, refund s hash now true = .ok (s', t)) ↔
      (s.hashlocks hash).expires_at ≤ now) ∧
    (now < (s.hashlocks hash).expires_at →
      refund s hash now true = .error "ESCROW_ACTIVE") ∧
    (∀ s' t, refund s hash now true = .ok (s', t) →
      t = ⟨Option.none, (s.hashlocks hash).user, (s.hashlocks hash).amount⟩ ∧
      (s'.hashlocks hash).phase = EscrowPhase.refunded) ∧
    ((∃ s' t, operator_refund s caller hash now true = .ok (s', t)) ↔
      caller = s.protocol_operator) ∧
    (∀ s' t, operator_refund s caller hash now true = .ok (s', t) →
      t = ⟨Option.none, (s.hashlocks hash).user, (s.hashlocks hash).amount⟩ ∧
      (s'.hashlocks hash).phase = EscrowPhase.refunded) := by
  refine ⟨⟨?_, ?_⟩, ?_, ?_, ⟨?_, ?_⟩, ?_⟩
  · rintro ⟨s', t, h⟩
    unfold refund at h
    split_ifs at h with h1 h2 h3 <;> cases h
    omega
  · intro hexp
    refine ⟨{ s with hashlocks := (writeHash s.hashlocks hash
        ({ s.hashlocks hash with phase := EscrowPhase.refunded })) },
      ⟨Option.none, (s.hashlocks hash).user, (s.hashlocks hash).amount⟩, ?_⟩
    unfold refund
    rw [if_neg (by simp [hlock]), if_neg (by simpa using hexp), if_neg (by simp)]
  · intro hlt
    unfold refund
    rw [if_neg (by simp [hlock]), if_pos (by omega)]
  · intro s' t h
    unfold refund at h
    split_ifs at h with h1 h2 h3 <;> cases h
    exact ⟨rfl, by simp [writeHash]⟩
  · rintro ⟨s', t, h⟩
    unfold operator_refund at h
    split_ifs at h with h1 h2 h3 <;> cases h
    simpa using h1
  · intro hc
    refine ⟨{ s with hashlocks := (writeHash s.hashlocks hash
        ({ s.hashlocks hash with phase := EscrowPhase.refunded })) },
      ⟨Option.none, (s.hashlocks hash).user, (s.hashlocks hash).amount⟩, ?_⟩
    unfold operator_refund
    rw [if_neg (by simp [hc]), if_neg (by simp [hlock]), if_neg (by simp)]
  · intro s' t h
    unfold operator_refund at h
    split_ifs at h with h1 h2 h3 <;> cases h
    exact ⟨rfl, by simp [writeHash]⟩

/-- **C3** witness: on the demo `Locked` position, `refund` succeeds once
expired (`now = 5000 ≥ 4600`) and `operator_refund` succeeds for the
operator even before expiry (`now = 2000 < 4600`). -/
theorem refund_gates_witness :
    (∃ s' t, refund demoLockedState demoHash 5000 true = .ok (s', t)) ∧
    (∃ s' t, operator_refund demoLockedState 2 demoHash 2000 true = .ok (s', t)) :=
  ⟨(refund_and_operator_refund_gates demoLockedState 2 demoHash 5000
      (by decide)).1.mpr (by decide),
   (refund_and_operator_refund_gates demoLockedState 2 demoHash 2000
      (by decide)).2.2.2.1.mpr rfl⟩

/-- **C4**.  `ensure_amount_within_limit`, which compares `(high, low)`
limb pairs lexicographically, errors with `LIMIT_EXCEEDED` exactly when
the mathematical 256-bit value of the amount exceeds that of the limit
(limbs being genuine `u128` values); every successful lock has
`0 < amount ≤ payment_limit` and stores `expires_at - locked_at =
expiry_window`; and both the constructor and `update_expiry_window`
enforce `expiry_window < 604800`. -/
theorem lock_amount_and_expiry_bounds
    (s : ContractState) (caller user now selfa : Nat) (amount hash : U256) (tfOk : Bool)
    (o op tr asst w : Nat) (lim : U256) (s' : ContractState) (t : TokenTransfer) :
    (amount.wf → s.payment_limit.wf →
      ((ensure_amount_within_limit amount s.payment_limit = .error "LIMIT_EXCEEDED" ↔
          s.payment_limit.val < amount.val) ∧
       (ensure_amount_within_limit amount s.payment_limit = .ok () ↔
          amount.val ≤ s.payment_limit.val))) ∧
    (lock_for_ln_payment s caller user amount hash now selfa tfOk = .ok (s', t) →
      0 < amount.val ∧
      (amount.wf → s.payment_limit.wf → amount.val ≤ s.payment_limit.val) ∧
      (s'.hashlocks hash).expires_at - (s'.hashlocks hash).locked_at = s.expiry_window ∧
      (s'.hashlocks hash).locked_at = now ∧
      (s'.hashlocks hash).expires_at = now + s.expiry_window) ∧
    (∀ cs, constructor o op tr asst w lim = .ok cs → cs.expiry_window = w ∧ w < 604800) ∧
    (∀ cs, update_expiry_window s caller w = .ok cs →
      cs.expiry_window = w ∧ w < 604800) := by
  have e128 : (2 : ℕ) ^ 128 = 340282366920938463463374607431768211456 := by norm_num
  refine ⟨?_, ?_, ?_, ?_⟩
  · rintro ⟨hal, hah⟩ ⟨hll, hlh⟩
    rw [e128] at hal hah hll hlh
    unfold ensure_amount_within_limit U256.val
    rw [e128]
    split_ifs with hA hB
    · refine ⟨⟨fun _ => by omega, fun _ => rfl⟩, ⟨fun hc => (nomatch hc), fun hle => ?_⟩⟩
      exfalso; omega
    · refine ⟨⟨fun _ => by omega, fun _ => rfl⟩, ⟨fun hc => (nomatch hc), fun hle => ?_⟩⟩
      exfalso; omega
    · refine ⟨⟨fun hc => (nomatch hc), fun hlt => ?_⟩, ⟨fun _ => by omega, fun _ => rfl⟩⟩
      exfalso; omega
  · intro h
    unfold lock_for_ln_payment at h
    split_ifs at h with h1 h2 h3 h4 h5 h6 h7 <;> cases h
    refine ⟨?_, ?_, by simp [writeHash], by simp [writeHash], by simp [writeHash]⟩
    · unfold U256.val
      rw [e128]
      omega
    · rintro ⟨hal, hah⟩ ⟨hll, hlh⟩
      rw [e128] at hal hah hll hlh
      unfold U256.val
      rw [e128]
      omega
  · intro cs h
    unfold constructor at h
    split_ifs at h with h1 h2 h3 h4 h5 h6 <;> cases h
    exact ⟨rfl, by simpa [MAX_EXPIRY_WINDOW] using h5⟩
  · intro cs h
    unfold update_expiry_window at h
    split_ifs at h with h1 h2 <;> cases h
    exact ⟨rfl, by simpa [MAX_EXPIRY_WINDOW] using h1⟩

/-- **C4** witness: the demo lock of 5000 under limit 10000 succeeds with
positive bounded amount and a 3600-second expiry window. -/
theorem lock_bounds_witness :
    0 < (⟨5000, 0⟩ : U256).val ∧
    ((⟨5000, 0⟩ : U256).wf → demoConfigState.payment_limit.wf →
      (⟨5000, 0⟩ : U256).val ≤ demoConfigState.payment_limit.val) ∧
    (demoLockedState.hashlocks demoHash).expires_at -
      (demoLockedState.hashlocks demoHash).locked_at = demoConfigState.expiry_window ∧
    (demoLockedState.hashlocks demoHash).locked_at = 1000 ∧
    (demoLockedState.hashlocks demoHash).expires_at =
      1000 + demoConfigState.expiry_window :=
  (lock_amount_and_expiry_bounds demoConfigState 5 5 1000 7 ⟨5000, 0⟩ demoHash true
      1 2 3 4 3600 ⟨10000, 0⟩ demoLockedState ⟨some 5, 7, ⟨5000, 0⟩⟩).2.1 rfl

end EscrowVault

namespace Backend

/-- Splitting along a run: if `ds` all satisfy `p` and `rest` starts with
a failing element (or is empty), `takeWhile`/`dropWhile` recover exactly
`ds` and `rest`. -/
theorem takeWhile_split {α} (p : α → Bool) (ds rest : List α)
    (hds : ∀ c ∈ ds, p c = true)
    (hrest : ∀ r, rest.head? = some r → p r = false) :
    (ds ++ rest).takeWhile p = ds ∧ (ds ++ rest).dropWhile p = rest := by
  induction ds with
  | nil =>
    cases rest with
    | nil => simp
    | cons r rs =>
      have hr := hrest r rfl
      simp [List.takeWhile_cons, List.dropWhile_cons, hr]
  | cons d ds ih =>
    have hd := hds d (by simp)
    have hrec := ih (fun c hc => hds c (by simp [hc]))
    simp [List.takeWhile_cons, List.dropWhile_cons, hd, hrec.1, hrec.2]

/-- A remainder accepted by `(msat)?$` cannot begin with a digit. -/
theorem msatSuffix_head_not_digit (rest : List Char) (h : msatSuffix rest = true) :
    ∀ r, rest.head? = some r → Char.isDigit r = false := by
  intro r hr
  cases rest with
  | nil => cases hr
  | cons c cs =>
    injection hr with hr
    subst hr
    unfold msatSuffix at h
    simp only [List.isEmpty_cons, Bool.false_or] at h
    unfold ciLit at h
    rw [Bool.and_eq_true] at h
    rcases h with ⟨h1, _⟩
    rw [Bool.or_eq_true, decide_eq_true_eq, decide_eq_true_eq] at h1
    rcases h1 with h1 | h1 <;> subst h1 <;> decide

theorem parseMsat_str_iff (s : String) (k : Nat) :
    parseMsat (.jstr s) = some ((k : Nat) : Int) ↔ MsatRegexMatch s k := by
  constructor
  · intro h
    simp only [parseMsat, msatAnchored] at h
    split_ifs at h with hc
    · obtain ⟨hne, hsuf⟩ := hc
      simp only [Option.map_some'] at h
      refine ⟨s.toList.takeWhile Char.isDigit, s.toList.dropWhile Char.isDigit,
        (List.takeWhile_append_dropWhile (p := Char.isDigit) (l := s.toList)).symm,
        hne, ?_, hsuf, ?_⟩
      · intro c hcmem
        exact List.mem_takeWhile_imp hcmem
      · have hinj := Option.some.inj h
        exact_mod_cast hinj.symm
    · simp at h
  · rintro ⟨ds, rest, hsplit, hne, hdig, hsuf, hk⟩
    simp only [parseMsat, msatAnchored]
    have hsp := takeWhile_split Char.isDigit ds rest hdig
      (msatSuffix_head_not_digit rest hsuf)
    rw [hsplit, hsp.1, hsp.2, if_pos ⟨hne, hsuf⟩]
    simp [hk]

/-- **C9** (amended).  `parseMsat`: `null`/`undefined` yield a missing
value; integer numbers and bigints are returned as their integer value;
a string yields the captured integer exactly when it matches
`^(\d+)(msat)?$` case-insensitively — and when that anchored match fails
the result is `null`: `parseMsat` has **no** digits-extraction fallback
(that fallback lives in `parseNumericValue` and `parseSatsValue`). -/
theorem parseMsat_exact (s : String) (n : Int) (k : Nat) :
    parseMsat .jnull = Option.none ∧
    parseMsat (.jnum n) = some n ∧
    parseMsat (.jbig n) = some n ∧
    parseMsat .jother = Option.none ∧
    (parseMsat (.jstr s) = some ((k : Nat) : Int) ↔ MsatRegexMatch s k) ∧
    ((∀ m : Nat, ¬ MsatRegexMatch s m) → parseMsat (.jstr s) = Option.none) := by
  refine ⟨rfl, rfl, rfl, rfl, parseMsat_str_iff s k, ?_⟩
  intro hno
  cases hres : parseMsat (.jstr s) with
  | none => rfl
  | some i =>
    have hnat : ∃ m : Nat, i = (m : Int) := by
      simp only [parseMsat] at hres
      cases hm : msatAnchored s with
      | none => rw [hm] at hres; cases hres
      | some m =>
        rw [hm] at hres
        simp only [Option.map_some'] at hres
        exact ⟨m, (Option.some.inj hres).symm⟩
    obtain ⟨m, rfl⟩ := hnat
    exact absurd ((parseMsat_str_iff s m).mp hres) (hno m)

/-- **C9** witness: `"7msat"` parses to `7` through the anchored match. -/
theorem parseMsat_exact_witness :
    parseMsat (.jstr "7msat") = some ((7 : Nat) : Int) :=
  (parseMsat_exact "7msat" 5 7).2.2.2.2.1.mpr
    ⟨['7'], ['m', 's', 'a', 't'], by decide, by decide, by decide, by decide, by decide⟩

/-- **C9** counterexample to the claim as stated: on `"1 000"` the
anchored match fails and `parseMsat` returns `null`, while the claimed
digits-extraction fallback would return `1000`. -/
theorem parseMsat_fallback_cex :
    parseMsat (.jstr "1 000") = Option.none ∧
    parseMsatClaimed (.jstr "1 000") = some 1000 := by
  constructor <;> decide

/-- **C6**.  The nonce lane assigns the current counter to the call
(seeding it from the chain when uninitialised) and advances the counter
before submission; a failure whose lowercased message contains `nonce`
together with one of `low`/`used`/`already`/`invalid`/`out of order`
invalidates the counter so the next call re-seeds; any other failure
propagates with the counter still advanced. -/
theorem withNonce_lane {α : Type} (st : NonceState) (chainNonce : Nat)
    (fn : Nat → Except JsError α) (used : Nat)
    (hused : used = match st.next with | Option.none => chainNonce | some n => n) :
    (∀ v, fn used = .ok v →
      withNonce st chainNonce fn = (.ok v, ⟨some (used + 1)⟩, used)) ∧
    (∀ e, fn used = .error e → isNonceSyncError e = true →
      withNonce st chainNonce fn = (.error e, ⟨Option.none⟩, used)) ∧
    (∀ e, fn used = .error e → isNonceSyncError e = false →
      withNonce st chainNonce fn = (.error e, ⟨some (used + 1)⟩, used)) := by
  subst hused
  refine ⟨fun v hv => ?_, fun e he hsync => ?_, fun e he hsync => ?_⟩ <;>
    simp only [withNonce]
  · rw [hv]
  · rw [he]
    simp [hsync]
  · rw [he]
    simp [hsync]

/-- **C6** witness: a desync message resets the cache; an unrelated error
and a success both leave the counter advanced, and a set counter is used
as-is while an empty one seeds from the chain. -/
theorem withNonce_lane_witness :
    withNonce ⟨Option.none⟩ 5 (fun _ => (.error demoSyncErr : Except JsError Nat)) =
      (.error demoSyncErr, ⟨Option.none⟩, 5) ∧
    withNonce ⟨some 9⟩ 5 (fun _ => (.error demoOtherErr : Except JsError Nat)) =
      (.error demoOtherErr, ⟨some 10⟩, 9) ∧
    withNonce ⟨some 9⟩ 5 (fun n => (.ok n : Except JsError Nat)) =
      (.ok 9, ⟨some 10⟩, 9) :=
  ⟨(withNonce_lane ⟨Option.none⟩ 5 _ 5 rfl).2.1 demoSyncErr rfl (by decide),
   (withNonce_lane ⟨some 9⟩ 5 _ 9 rfl).2.2 demoOtherErr rfl (by decide),
   (withNonce_lane ⟨some 9⟩ 5 _ 9 rfl).1 9 rfl⟩

/-- **C8** (amended).  `credited` is absorbing (the gate skips without
touching the record); a `failed` credit with a pending retry window is
skipped; a stale `processing` credit is rewritten by
`resetStuckProcessing` to `pending` with the `stale_processing`
annotation — but the same invocation then proceeds to a fresh transfer
attempt (incrementing `attempts` and clearing the annotation) when the
address and amount are valid; and a `processing` credit more recent than
the stale threshold is **not** skipped: it proceeds to a new transfer
attempt exactly like a `pending` one. -/
theorem credit_monitor_gates (invoice : MonitorInvoice) (credit : CreditState)
    (now retryMs staleMs : Nat) :
    (credit.status = "credited" →
      attemptCreditGate invoice credit now retryMs staleMs =
        { proceed := false, reason := some "already_credited", credit := credit }) ∧
    (credit.status = "failed" → ∀ t, credit.next_retry_at = some t → 0 < t → now < t →
      attemptCreditGate invoice credit now retryMs staleMs =
        { proceed := false, reason := some "retry_wait", credit := credit }) ∧
    (credit.status = "processing" → now - credit.last_attempt_at.getD 0 > staleMs →
      (resetStuckProcessing credit now staleMs).status = "pending" ∧
      (resetStuckProcessing credit now staleMs).last_error =
        some ⟨"Recovered from stale processing state", "stale_processing"⟩) ∧
    (credit.status = "processing" → ¬ now - credit.last_attempt_at.getD 0 > staleMs →
      ∀ recipient, normalizeStarknet invoice.credit_address = some recipient →
      ∀ a : Int, resolveInvoiceAmountSats invoice = some a → 0 < a →
      (attemptCreditGate invoice credit now retryMs staleMs).proceed = true ∧
      (attemptCreditGate invoice credit now retryMs staleMs).credit.attempts =
        credit.attempts + 1) ∧
    (credit.status = "processing" → now - credit.last_attempt_at.getD 0 > staleMs →
      ∀ recipient, normalizeStarknet invoice.credit_address = some recipient →
      ∀ a : Int, resolveInvoiceAmountSats invoice = some a → 0 < a →
      (attemptCreditGate invoice credit now retryMs staleMs).proceed = true ∧
      (attemptCreditGate invoice credit now retryMs staleMs).credit.attempts =
        credit.attempts + 1 ∧
      (attemptCreditGate invoice credit now retryMs staleMs).credit.status =
        "processing" ∧
      (attemptCreditGate invoice credit now retryMs staleMs).credit.last_error =
        Option.none) := by
  refine ⟨?_, ?_, ?_, ?_, ?_⟩
  · intro hst
    have hreset : resetStuckProcessing credit now staleMs = credit := by
      unfold resetStuckProcessing
      rw [if_pos (by simp [hst])]
    simp [attemptCreditGate, hreset, hst]
  · intro hst t hretry h0 hlt
    have hreset : resetStuckProcessing credit now staleMs = credit := by
      unfold resetStuckProcessing
      rw [if_pos (by simp [hst])]
    have hdelay : shouldDelayRetry credit now = true := by
      unfold shouldDelayRetry
      rw [if_neg (by simp [hst]), hretry]
      dsimp only
      rw [if_neg (by omega)]
      simp [hlt]
    simp [attemptCreditGate, hreset, hst, hdelay]
  · intro hst hstale
    unfold resetStuckProcessing
    rw [if_neg (by simp [hst]), if_pos (by simpa using hstale)]
    exact ⟨rfl, rfl⟩
  · intro hst hrecent recipient hrec a ha hpos
    have hreset : resetStuckProcessing credit now staleMs = credit := by
      unfold resetStuckProcessing
      rw [if_neg (by simp [hst]), if_neg (by simpa using hrecent)]
    have hdelay : shouldDelayRetry credit now = false := by
      unfold shouldDelayRetry
      rw [if_pos (by simp [hst])]
    simp [attemptCreditGate, hreset, hst, hdelay, hrec, ha, not_le.mpr hpos]
  · intro hst hstale recipient hrec a ha hpos
    have hreset : resetStuckProcessing credit now staleMs =
        { credit with
          status := "pending",
          last_error := some ⟨"Recovered from stale processing state",
            "stale_processing"⟩ } := by
      unfold resetStuckProcessing
      rw [if_neg (by simp [hst]), if_pos (by simpa using hstale)]
    have hdelay : shouldDelayRetry (resetStuckProcessing credit now staleMs) now
        = false := by
      rw [hreset]
      unfold shouldDelayRetry
      rw [if_pos (by simp)]
    rw [hreset] at hdelay
    simp [attemptCreditGate, hreset, hdelay, hrec, ha, not_le.mpr hpos]

/-- **C8** witness: the gate leaves a `credited` record untouched and
skips it. -/
theorem credit_monitor_gates_witness :
    attemptCreditGate demoMonitorInvoice { status := "credited", attempts := 3 }
        1000 60000 300000 =
      { proceed := false, reason := some "already_credited",
        credit := { status := "credited", attempts := 3 } } :=
  (credit_monitor_gates demoMonitorInvoice { status := "credited", attempts := 3 }
      1000 60000 300000).1 rfl

/-- **C8** counterexample to the claim as stated: a `processing` credit
whose last attempt is 1000 ms old (well inside the 300000 ms stale
window) is **not** skipped — the gate proceeds to a new transfer attempt
and increments `attempts`. -/
theorem processing_recent_not_skipped_cex :
    (10000000 : Nat) - 9999000 ≤ 300000 ∧
    (attemptCreditGate demoMonitorInvoice demoRecentProcessing
      10000000 60000 300000).proceed = true ∧
    (attemptCreditGate demoMonitorInvoice demoRecentProcessing
      10000000 60000 300000).credit.attempts = 2 :=
  ⟨by decide, rfl, rfl⟩

theorem getEntry_setEntry_same (store : PayStore) (key : String) (e : PaymentEntry) :
    getEntry (setEntry store key e) key = e := by
  induction store with
  | nil => simp [setEntry, getEntry, List.lookup]
  | cons kv rest ih =>
    obtain ⟨k, v⟩ := kv
    by_cases hk : k = key
    · simp [setEntry, hk, getEntry, List.lookup]
    · have hk2 : (key == k) = false :=
        beq_eq_false_iff_ne.mpr (fun hkk => hk hkk.symm)
      simp only [setEntry, if_neg hk, getEntry, List.lookup, hk2] at ih ⊢
      simpa using ih

theorem getEntry_mutatePayment (store : PayStore) (ph : String)
    (f : PaymentEntry → PaymentEntry) :
    getEntry (mutatePayment store ph f) (jsToLower ph) =
      f (getEntry store (jsToLower ph)) :=
  getEntry_setEntry_same store (jsToLower ph) _

/-- **C10**.  `processEscrowPayment` restores `inflightHashes` on every
exit: the `already_claimed` short-circuit never touches the set; a
`payment_inflight` rejection (HTTP 409) happens before the insert and
leaves the whole state — including the in-progress invocation's entry —
untouched; and an invocation that passes the gate removes its hash again
on every path, result or throw, so the final in-flight set equals the
initial one. -/
theorem inflight_discipline (env : OrchEnv) (st : OrchState) (locked : LockedView)
    (bolt11 : Option String) :
    (locked.paymentHashHex ∈ st.processed →
      (processEscrowPayment env st locked bolt11).2.2.inflight = st.inflight) ∧
    (locked.paymentHashHex ∉ st.processed → locked.paymentHashHex ∈ st.inflight →
      (∃ e : JsError, (processEscrowPayment env st locked bolt11).1 = .error e ∧
        e.code = some "payment_inflight" ∧ e.status = some 409) ∧
      (processEscrowPayment env st locked bolt11).2.2.inflight = st.inflight ∧
      (processEscrowPayment env st locked bolt11).2.2.store = st.store ∧
      (processEscrowPayment env st locked bolt11).2.2.processed = st.processed) ∧
    (locked.paymentHashHex ∉ st.processed → locked.paymentHashHex ∉ st.inflight →
      (processEscrowPayment env st locked bolt11).2.2.inflight = st.inflight ∧
      locked.paymentHashHex ∉ (processEscrowPayment env st locked bolt11).2.2.inflight) := by
  refine ⟨?_, ?_, ?_⟩
  · intro hmem
    simp [processEscrowPayment, hmem]
  · intro hproc hinf
    have hrun : processEscrowPayment env st locked bolt11 =
        (.error { message := "Payment processing already in progress for this hash",
                  code := some "payment_inflight", status := some 409 }, [], st) := by
      simp [processEscrowPayment, hproc, hinf]
    rw [hrun]
    exact ⟨⟨_, rfl, rfl, rfl⟩, rfl, rfl, rfl⟩
  · intro hproc hinf
    have : (processEscrowPayment env st locked bolt11).2.2.inflight = st.inflight := by
      simp [processEscrowPayment, hproc, hinf, List.erase_cons_head]
    exact ⟨this, by rw [this]; exact hinf⟩

/-- **C10** witness: a concurrent duplicate is rejected with
`payment_inflight` before any insert, leaving the in-progress entry in
place, and a gate-passing run restores the in-flight set. -/
theorem inflight_discipline_witness :
    ((∃ e : JsError,
        (processEscrowPayment demoEnvLocked demoInflightState demoLockedView
          Option.none).1 = .error e ∧
        e.code = some "payment_inflight" ∧ e.status = some 409) ∧
      (processEscrowPayment demoEnvLocked demoInflightState demoLockedView
        Option.none).2.2.inflight = demoInflightState.inflight ∧
      (processEscrowPayment demoEnvLocked demoInflightState demoLockedView
        Option.none).2.2.store = demoInflightState.store ∧
      (processEscrowPayment demoEnvLocked demoInflightState demoLockedView
        Option.none).2.2.processed = demoInflightState.processed) ∧
    ((processEscrowPayment demoEnvLocked
        { processed := [], inflight := [], store := [] } demoLockedView
        Option.none).2.2.inflight = [] ∧
      "aa" ∉ (processEscrowPayment demoEnvLocked
        { processed := [], inflight := [], store := [] } demoLockedView
        Option.none).2.2.inflight) :=
  ⟨(inflight_discipline demoEnvLocked demoInflightState demoLockedView
      Option.none).2.1 (by decide) (by decide),
   (inflight_discipline demoEnvLocked
      { processed := [], inflight := [], store := [] } demoLockedView
      Option.none).2.2 (by decide) (by decide)⟩

/-- **C5** (amended).  A hash already in `processedHashes` short-circuits
`processEscrowPayment` before any external call (empty trace), returning
the `already_claimed` result and touching neither set.  At the
`process_payment_request` level, however, the orchestrator performs one
on-chain `get_escrow` read *before* the gate: a subsequent invocation
whose escrow read still shows `Locked` returns `already_claimed` with
exactly that one chain read and no Lightning or claim traffic; if the
read fails, or the position is no longer `Locked` on chain (the normal
situation after a successful claim), the invocation throws instead. -/
theorem already_claimed_idempotence (env : OrchEnv) (st : OrchState)
    (locked : LockedView) (bolt11 : Option String) (h : String) (raw : RawEscrow)
    (e : JsError) :
    (locked.paymentHashHex ∈ st.processed →
      processEscrowPayment env st locked bolt11 =
        (.ok { status := "already_claimed", lightning_status := "skipped",
               starknet_status := "skipped" },
         [],
         { st with
           store := markPaymentAlreadyClaimed st.store locked.paymentHashHex })) ∧
    (h ∈ st.processed → env.getEscrow = .ok raw → phaseIsLocked raw.phase = true →
      (processPaymentRequest env st h bolt11).1 =
        .ok { status := "already_claimed",
              locked_user := jsToLower (normalizeHexStr raw.user),
              locked_amount :=
                ((raw.amount_low + raw.amount_high * 2 ^ 128 : Nat) : Int) } ∧
      (processPaymentRequest env st h bolt11).2.1 = [Ev.chainGetEscrow] ∧
      Ev.clnFindInvoice ∉ (processPaymentRequest env st h bolt11).2.1 ∧
      Ev.clnPay ∉ (processPaymentRequest env st h bolt11).2.1 ∧
      Ev.submitClaim ∉ (processPaymentRequest env st h bolt11).2.1 ∧
      (processPaymentRequest env st h bolt11).2.2.processed = st.processed ∧
      (processPaymentRequest env st h bolt11).2.2.inflight = st.inflight) ∧
    (env.getEscrow = .error e →
      processPaymentRequest env st h bolt11 = (.error e, [Ev.chainGetEscrow], st)) ∧
    (env.getEscrow = .ok raw → phaseIsLocked raw.phase = false →
      processPaymentRequest env st h bolt11 =
        (.error { message := "Escrow position not found or not in Locked phase" },
         [Ev.chainGetEscrow], st)) := by
  have hshortAll : ∀ (st2 : OrchState) (lv : LockedView),
      lv.paymentHashHex ∈ st2.processed →
      processEscrowPayment env st2 lv bolt11 =
        (.ok { status := "already_claimed", lightning_status := "skipped",
               starknet_status := "skipped" },
         [],
         { st2 with
           store := markPaymentAlreadyClaimed st2.store lv.paymentHashHex }) := by
    intro st2 lv hmem
    simp [processEscrowPayment, hmem]
  refine ⟨hshortAll st locked, ?_, ?_, ?_⟩
  · intro hmem hesc hph
    have hload : loadEscrowFromStorage env h =
        (.ok { user := jsToLower (normalizeHexStr raw.user), paymentHashHex := h,
               amount := ((raw.amount_low + raw.amount_high * 2 ^ 128 : Nat) : Int),
               expiresAt := raw.expires_at, lockedAt := raw.locked_at },
         [Ev.chainGetEscrow]) := by
      simp [loadEscrowFromStorage, hesc, hph]
    have hrun : processPaymentRequest env st h bolt11 =
        (.ok { status := "already_claimed",
               locked_user := jsToLower (normalizeHexStr raw.user),
               locked_amount :=
                 ((raw.amount_low + raw.amount_high * 2 ^ 128 : Nat) : Int) },
         [Ev.chainGetEscrow],
         { st with
           store := markPaymentAlreadyClaimed
             (recordPaymentRequest st.store h bolt11) h }) := by
      simp only [processPaymentRequest, hload]
      rw [hshortAll { st with store := recordPaymentRequest st.store h bolt11 } _
        (by simpa using hmem)]
      rfl
    refine ⟨?_, ?_, ?_, ?_, ?_, ?_, ?_⟩ <;> rw [hrun] <;> first | rfl | simp
  · intro hesc
    simp [processPaymentRequest, loadEscrowFromStorage, hesc]
  · intro hesc hph
    simp [processPaymentRequest, loadEscrowFromStorage, hesc, hph]

/-- **C5** witness: with the hash in `processedHashes`,
`processEscrowPayment` returns the `already_claimed` skip with an empty
trace and only the `already_claimed` store mark. -/
theorem already_claimed_idempotence_witness :
    processEscrowPayment demoEnvLocked demoProcessedState demoLockedView
        Option.none =
      (.ok { status := "already_claimed", lightning_status := "skipped",
             starknet_status := "skipped" },
       [],
       { demoProcessedState with
         store := markPaymentAlreadyClaimed demoProcessedState.store
           demoLockedView.paymentHashHex }) :=
  (already_claimed_idempotence demoEnvLocked demoProcessedState demoLockedView
      Option.none "aa" demoRaw { message := "" }).1 (by decide)

/-- **C5** counterexample to the claim as stated: with `"aa"` already in
`processedHashes`, a second `process_payment_request` still performs the
on-chain `get_escrow` read — the invocation's trace is exactly that one
chain read — before the `already_claimed` short-circuit, so the
`processed_hashes` gate does not act "before any on-chain read". -/
theorem already_claimed_chain_read_cex :
    (processPaymentRequest demoEnvLocked demoProcessedState "aa" Option.none).2.1 =
      [Ev.chainGetEscrow] ∧
    Ev.chainGetEscrow ∈
      (processPaymentRequest demoEnvLocked demoProcessedState "aa" Option.none).2.1 ∧
    (processPaymentRequest demoEnvLocked demoProcessedState "aa" Option.none).1 =
      .ok { status := "already_claimed", locked_user := "0xabc",
            locked_amount := 5000 } :=
  ⟨rfl, by decide, rfl⟩

/-- **C7**.  When the reconciled invoice amount differs from the on-chain
locked amount (here via the external-BOLT11 path: no CLN invoice, a
decode whose hash matches but whose amount does not),
`process_payment_request` fails with code `amount_mismatch` (HTTP 409)
before any Lightning pay and before any claim submission — the trace is
just the initial chain read and the `listinvoices` lookup — the
persistent record ends with status `lightning_failed` carrying the
serialized `amount_mismatch` error in its lightning sub-state, and the
hash leaves the in-flight set. -/
theorem amount_mismatch_aborts (env : OrchEnv) (st : OrchState) (h : String)
    (raw : RawEscrow) (b : String) (decoded : DecodedBolt11)
    (hesc : env.getEscrow = .ok raw)
    (hph : phaseIsLocked raw.phase = true)
    (hfind : env.findInvoice = .ok Option.none)
    (hb : strNonEmpty b = true)
    (hdec : env.decodeBolt11 b = .ok decoded)
    (hhash : decoded.paymentHashNo0x = h)
    (hamt : ¬ decoded.amountSats =
      ((raw.amount_low + raw.amount_high * 2 ^ 128 : Nat) : Int))
    (hproc : h ∉ st.processed) (hinf : h ∉ st.inflight) :
    (∃ e2 : JsError, (processPaymentRequest env st h (some b)).1 = .error e2 ∧
      e2.code = some "amount_mismatch" ∧ e2.status = some 409) ∧
    (processPaymentRequest env st h (some b)).2.1 =
      [Ev.chainGetEscrow, Ev.clnFindInvoice] ∧
    Ev.clnPay ∉ (processPaymentRequest env st h (some b)).2.1 ∧
    Ev.submitClaim ∉ (processPaymentRequest env st h (some b)).2.1 ∧
    (getEntry (processPaymentRequest env st h (some b)).2.2.store
        (jsToLower (stripHexMark h))).status = "lightning_failed" ∧
    (ensureLightning (getEntry (processPaymentRequest env st h (some b)).2.2.store
        (jsToLower (stripHexMark h)))).error =
      some { message := "Locked amount does not match invoice amount",
             code := some "amount_mismatch", status := some 409 } ∧
    h ∉ (processPaymentRequest env st h (some b)).2.2.inflight := by
  have hload : loadEscrowFromStorage env h =
      (.ok { user := jsToLower (normalizeHexStr raw.user), paymentHashHex := h,
             amount := ((raw.amount_low + raw.amount_high * 2 ^ 128 : Nat) : Int),
             expiresAt := raw.expires_at, lockedAt := raw.locked_at },
       [Ev.chainGetEscrow]) := by
    simp [loadEscrowFromStorage, hesc, hph]
  have hbody : ∀ store0 processed0,
      escrowPayBody env store0 processed0
        { user := jsToLower (normalizeHexStr raw.user), paymentHashHex := h,
          amount := ((raw.amount_low + raw.amount_high * 2 ^ 128 : Nat) : Int),
          expiresAt := raw.expires_at, lockedAt := raw.locked_at } (some b) h =
      (.error { message := "Locked amount does not match invoice amount",
                code := some "amount_mismatch", status := some 409 },
       [Ev.clnFindInvoice], store0, processed0) := by
    intro store0 processed0
    simp only [escrowPayBody, hfind, hb, hdec, if_true]
    rw [if_neg (by simp [hhash])]
    simp only [escrowPayAfterAmount]
    rw [if_pos (by simpa using hamt)]
  have hrun : processPaymentRequest env st h (some b) =
      (.error { message := "Locked amount does not match invoice amount",
                code := some "amount_mismatch", status := some 409,
                paymentLogged := true },
       [Ev.chainGetEscrow, Ev.clnFindInvoice],
       { processed := st.processed,
         inflight := (h :: st.inflight).erase h,
         store := recordLightningFailure
           (markPaymentInflight (recordPaymentRequest st.store h (some b)) h) h
           { message := "Locked amount does not match invoice amount",
             code := some "amount_mismatch", status := some 409 } }) := by
    simp only [processPaymentRequest, hload]
    simp only [processEscrowPayment]
    rw [if_neg (by simpa using hproc), if_neg (by simpa using hinf)]
    rw [hbody (markPaymentInflight (recordPaymentRequest st.store h (some b)) h)
      st.processed]
    rfl
  have hentry : getEntry (processPaymentRequest env st h (some b)).2.2.store
      (jsToLower (stripHexMark h)) =
      { status := "lightning_failed",
        lightning := some
          { ensureLightning (getEntry (markPaymentInflight
              (recordPaymentRequest st.store h (some b)) h)
              (jsToLower (stripHexMark h))) with
            status := some "failed",
            error := some { message := "Locked amount does not match invoice amount",
                            code := some "amount_mismatch", status := some 409 } },
        starknet := (getEntry (markPaymentInflight
          (recordPaymentRequest st.store h (some b)) h)
          (jsToLower (stripHexMark h))).starknet,
        invoice := (getEntry (markPaymentInflight
          (recordPaymentRequest st.store h (some b)) h)
          (jsToLower (stripHexMark h))).invoice } := by
    rw [hrun]
    show getEntry (recordLightningFailure _ h _) _ = _
    rw [recordLightningFailure, getEntry_mutatePayment]
    have hstat : (getEntry (markPaymentInflight
        (recordPaymentRequest st.store h (some b)) h)
        (jsToLower (stripHexMark h))).status = "received" := by
      rw [markPaymentInflight, getEntry_mutatePayment,
        recordPaymentRequest, getEntry_mutatePayment]
      simp
    rw [hstat]
    simp [serializeError]
  refine ⟨⟨_, by rw [hrun], rfl, rfl⟩, by rw [hrun], by rw [hrun]; simp,
    by rw [hrun]; simp, by rw [hentry], by rw [hentry]; simp [ensureLightning], ?_⟩
  rw [hrun]
  simpa using hinf

/-- **C7** witness: the spec's literal scenario — 5000 sats locked
on-chain, a BOLT11 decoding to 6000 sats — fails `amount_mismatch` with
no pay and no claim call, and marks the record `lightning_failed`. -/
theorem amount_mismatch_witness :
    (∃ e2 : JsError,
      (processPaymentRequest demoEnvMismatch demoEmptyState "aa"
        (some "lnbc60")).1 = .error e2 ∧
      e2.code = some "amount_mismatch" ∧ e2.status = some 409) ∧
    (processPaymentRequest demoEnvMismatch demoEmptyState "aa"
      (some "lnbc60")).2.1 = [Ev.chainGetEscrow, Ev.clnFindInvoice] ∧
    Ev.clnPay ∉ (processPaymentRequest demoEnvMismatch demoEmptyState "aa"
      (some "lnbc60")).2.1 ∧
    Ev.submitClaim ∉ (processPaymentRequest demoEnvMismatch demoEmptyState "aa"
      (some "lnbc60")).2.1 ∧
    (getEntry (processPaymentRequest demoEnvMismatch demoEmptyState "aa"
        (some "lnbc60")).2.2.store (jsToLower (stripHexMark "aa"))).status =
      "lightning_failed" ∧
    (ensureLightning (getEntry (processPaymentRequest demoEnvMismatch
        demoEmptyState "aa" (some "lnbc60")).2.2.store
        (jsToLower (stripHexMark "aa")))).error =
      some { message := "Locked amount does not match invoice amount",
             code := some "amount_mismatch", status := some 409 } ∧
    "aa" ∉ (processPaymentRequest demoEnvMismatch demoEmptyState "aa"
      (some "lnbc60")).2.2.inflight :=
  amount_mismatch_aborts demoEnvMismatch demoEmptyState "aa" demoRaw "lnbc60"
    { paymentHashNo0x := "aa", amountSats := 6000 } rfl (by decide) rfl (by decide)
    rfl rfl (by decide) (by decide) (by decide)

end Backend
